import Mathlib

/-!
# Verification of the office climate automation core

Shallow embedding of the decision core of the `office-automation` repository:
the PRESENT/AWAY occupancy state machine (`src/state_machine.py`) and the
climate orchestrator (`src/orchestrator.py`).  Timestamps are modelled as
rationals (seconds), CO2/tVOC readings as integers, and fallible or
exception-raising code paths are made explicit in the return types.

All definitions are translated directly from the Python source; the few places
where the repository's own code is missing from the source tree (the AWAY
stale-air-flush feature, which only its unit tests reference) are modelled from
the specification and clearly marked `Modelled from the spec:` in their doc
comments.
-/

/-- Occupancy state (`OccupancyState` in `state_machine.py`): PRESENT or AWAY. -/
inductive OccState
  | present
  | away
  deriving DecidableEq

/-- ERV fan speed, ordered OFF < QUIET < MEDIUM < TURBO
(`FanSpeed` in `erv_client.py` plus the `"off"` string state). -/
inductive Speed
  | off
  | quiet
  | medium
  | turbo
  deriving DecidableEq

/-- HVAC operating mode (strings `"off"/"heat"/"cool"/"auto"` in the source). -/
inductive HvacMode
  | off
  | heat
  | cool
  | auto
  deriving DecidableEq

/-- `("heat", "cool", "auto")` membership test used by `_evaluate_hvac_state`. -/
def HvacMode.isOn : HvacMode → Bool
  | .off => false
  | _ => true

/-- The numeric priority of an adaptive speed recommendation:
`speed_priority = {"turbo": 3, "medium": 2, "quiet": 1, "off": 0, None: -1}`
(orchestrator.py line 586). -/
def Speed.prio : Speed → ℤ
  | .turbo => 3
  | .medium => 2
  | .quiet => 1
  | .off => 0

/-- `speed_priority.get(x, -1)` applied to an optional speed. -/
def prioOpt : Option Speed → ℤ
  | some sp => sp.prio
  | none => -1

/-- Rank used for the FanSpeed ordering OFF < QUIET < MEDIUM < TURBO. -/
def speedRank : Speed → ℕ
  | .off => 0
  | .quiet => 1
  | .medium => 2
  | .turbo => 3

/-- `StateConfig` from `state_machine.py` with the source's default values. -/
structure StateCfg where
  motionTimeoutSeconds : ℚ := 60
  departureVerificationSeconds : ℚ := 10
  doorOpenThresholdMinutes : ℚ := 5
  doorOpenAwayTimeoutMinutes : ℚ := 5
  co2CriticalPpm : ℤ := 2000
  co2RefreshTargetPpm : ℤ := 500
  deriving DecidableEq

/-- The state of a `StateMachine` instance: the `SensorState` sensor snapshot
together with the machine's own bookkeeping fields.  The two cancellable
asyncio tasks are modelled by Booleans that are true exactly while the
corresponding timer is live (started and neither cancelled nor completed);
a cancelled timer never runs its completion body. -/
structure SmState where
  state : OccState
  macLastActive : ℚ
  externalMonitor : Bool
  motionDetected : Bool
  motionLastSeen : ℚ
  doorOpen : Bool
  doorLastChanged : ℚ
  windowOpen : Bool
  co2Ppm : ℤ
  lastDoorState : Option Bool
  verifyingDeparture : Bool
  doorOpenAwayPending : Bool
  deriving DecidableEq

/-- `StateMachine.in_door_open_mode`: door open continuously for at least
`door_open_threshold_minutes` (lines 93-106). -/
def inDoorOpenMode (cfg : StateCfg) (s : SmState) (now : ℚ) : Bool :=
  s.doorOpen && decide ((now - s.doorLastChanged) / 60 ≥ cfg.doorOpenThresholdMinutes)

/-- `StateMachine.is_present` (lines 108-148).  In door-open mode workstation
activity counts whenever the external monitor is attached and any activity
timestamp greater than zero was recorded; in normal mode only activity after
the door's last change counts. -/
def isPresent (cfg : StateCfg) (s : SmState) (now : ℚ) : Bool :=
  if inDoorOpenMode cfg s now then
    let motionRecent := s.motionDetected
      || decide (now - s.motionLastSeen < cfg.motionTimeoutSeconds)
    let macRecent := s.externalMonitor && decide (s.macLastActive > 0)
    macRecent || motionRecent
  else
    let macPresence := s.externalMonitor && decide (s.macLastActive > s.doorLastChanged)
    let motionRecent := s.motionDetected
      || decide (now - s.motionLastSeen < cfg.motionTimeoutSeconds)
    let motionInside := motionRecent && !s.doorOpen
      && decide (s.motionLastSeen > s.doorLastChanged)
    macPresence || motionInside

/-- `safety_interlock_active` (lines 174-177). -/
def safetyInterlockActive (s : SmState) : Bool :=
  s.windowOpen || s.doorOpen

/-- `_cancel_departure_verification` (lines 206-212): a live departure timer is
cancelled and will never run its body. -/
def cancelDepartureVerification (s : SmState) : SmState :=
  if s.verifyingDeparture then { s with verifyingDeparture := false } else s

/-- `_cancel_door_open_away_timer` (lines 214-219). -/
def cancelDoorOpenAwayTimer (s : SmState) : SmState :=
  if s.doorOpenAwayPending then { s with doorOpenAwayPending := false } else s

/-- `_start_departure_verification` (lines 262-274): only starts when the
machine is PRESENT; starting replaces any prior timer. -/
def startDepartureVerification (s : SmState) : SmState :=
  if s.state = OccState.present then { s with verifyingDeparture := true } else s

/-- `_start_door_open_away_timer` (lines 276-287). -/
def startDoorOpenAwayTimer (s : SmState) : SmState :=
  if s.state = OccState.present then { s with doorOpenAwayPending := true } else s

/-- `StateMachine.evaluate` (lines 289-323).  Returns the updated machine state
together with a Bool that is true exactly when a state change was committed
(and hence the observers were notified once). -/
def smEvaluate (cfg : StateCfg) (s : SmState) (now : ℚ) : SmState × Bool :=
  let oldState := s.state
  let s :=
    if inDoorOpenMode cfg s now then
      if s.state = OccState.away ∧ isPresent cfg s now then
        startDoorOpenAwayTimer { s with state := OccState.present }
      else if s.state = OccState.present ∧ isPresent cfg s now then
        startDoorOpenAwayTimer s
      else s
    else
      if s.state = OccState.away ∧ isPresent cfg s now then
        { s with state := OccState.present }
      else s
  let s := { s with lastDoorState := some s.doorOpen }
  (s, decide (s.state ≠ oldState))

/-- `update_motion` (lines 346-356): stores the motion flag, stamps
`motion_last_seen` on detection, cancels a pending departure verification on
detection, then re-evaluates. -/
def updateMotion (cfg : StateCfg) (s : SmState) (detected : Bool) (now : ℚ) :
    SmState × Bool :=
  let s := { s with motionDetected := detected }
  let s :=
    if detected then
      let s := { s with motionLastSeen := now }
      cancelDepartureVerification s
    else s
  smEvaluate cfg s now

/-- `update_mac_occupancy` (lines 327-344): stores the workstation activity
timestamp and monitor flag; cancels a pending departure verification only when
the activity is newer than the door's last change; then re-evaluates. -/
def updateMacOccupancy (cfg : StateCfg) (s : SmState) (lastActive : ℚ)
    (monitor : Bool) (now : ℚ) : SmState × Bool :=
  let s := { s with externalMonitor := monitor, macLastActive := lastActive }
  let s :=
    if lastActive > s.doorLastChanged ∧ s.verifyingDeparture then
      cancelDepartureVerification s
    else s
  smEvaluate cfg s now

/-- `update_door` (lines 358-375): records the door state and change time; a
door open→close edge exits door-open mode (cancelling its timer) and starts
departure verification; then re-evaluates. -/
def updateDoor (cfg : StateCfg) (s : SmState) (isOpen : Bool) (now : ℚ) :
    SmState × Bool :=
  let wasOpen := s.lastDoorState
  let s := { s with doorOpen := isOpen, doorLastChanged := now }
  let s :=
    if wasOpen = some true ∧ isOpen = false then
      startDepartureVerification (cancelDoorOpenAwayTimer s)
    else s
  smEvaluate cfg s now

/-- `update_window` (lines 377-382). -/
def updateWindow (cfg : StateCfg) (s : SmState) (isOpen : Bool) (now : ℚ) :
    SmState × Bool :=
  smEvaluate cfg { s with windowOpen := isOpen } now

/-- `_departure_verification_timer` (lines 221-242), at the moment the timer
elapses.  A cancelled timer never runs this body, so nothing happens unless
the verification is still pending; if the machine is still PRESENT the
transition to AWAY is committed and the stored motion signal is zeroed. -/
def departureTimerFire (s : SmState) : SmState × Bool :=
  if s.verifyingDeparture then
    if s.state = OccState.present then
      ({ s with state := OccState.away, motionLastSeen := 0,
                motionDetected := false, verifyingDeparture := false }, true)
    else
      ({ s with verifyingDeparture := false }, false)
  else (s, false)

/-- `_door_open_away_timer` (lines 244-260), at the moment the timer elapses. -/
def doorOpenAwayTimerFire (cfg : StateCfg) (s : SmState) (now : ℚ) :
    SmState × Bool :=
  if s.doorOpenAwayPending then
    if s.state = OccState.present ∧ inDoorOpenMode cfg s now then
      ({ s with state := OccState.away, doorOpenAwayPending := false }, true)
    else
      ({ s with doorOpenAwayPending := false }, false)
  else (s, false)

/-! ## Orchestrator: configuration and state -/

/-- `ThresholdsConfig` from `src/config.py` (lines 60-107) with the source's
default values.  The one exception is `co2TurboDurationMinutes`, which is
Modelled from the spec: the field `co2_turbo_duration_minutes` is read by the
orchestrator (lines 347 and 877) and set to 30 by the repository's tests, but
is missing from the `ThresholdsConfig` dataclass in `src/config.py`; the spec
gives `turboDurationMinutes` the default 30. -/
structure Thresholds where
  co2CriticalPpm : ℤ := 2000
  co2CriticalHysteresisPpm : ℤ := 200
  co2RefreshTargetPpm : ℤ := 500
  hvacMinTempF : ℚ := 68
  hvacCriticalTempF : ℚ := 55
  co2PlateauEnabled : Bool := true
  co2PlateauRateThreshold : ℚ := 1/2
  co2PlateauWindowMinutes : ℕ := 10
  co2PlateauMinCo2 : ℤ := 600
  co2AdaptiveSpeedEnabled : Bool := true
  co2RateTurboThreshold : ℚ := 8
  co2RateMediumThreshold : ℚ := 2
  co2RateQuietThreshold : ℚ := 1/2
  co2TurboDurationMinutes : ℚ := 30
  tvocAwayEnabled : Bool := true
  tvocAwayThreshold : ℤ := 200
  tvocAwayTarget : ℤ := 40
  tvocPlateauRateThreshold : ℚ := 3/10
  tvocRateTurboThreshold : ℚ := 5
  tvocRateMediumThreshold : ℚ := 3/2
  tvocRateQuietThreshold : ℚ := 3/10
  deriving DecidableEq

/-- A manual ERV override.  The three Python fields `_manual_erv_override`,
`_manual_erv_speed` and `_manual_erv_override_at` are always assigned together
(set at lines 968-970, cleared at lines 253-255 and 769-771), so they are
bundled: `some m` models the override being active. -/
structure ManualErv where
  speed : Speed
  setAt : ℚ
  deriving DecidableEq

/-- A manual HVAC override, bundling `_manual_hvac_override`,
`_manual_hvac_mode`, `_manual_hvac_setpoint_f` and `_manual_hvac_override_at`
(set at lines 1031-1034, cleared at lines 261-264 and 772-775). -/
structure ManualHvac where
  mode : HvacMode
  setpointF : ℚ
  setAt : ℚ
  deriving DecidableEq

/-- The orchestrator's mutable fields relevant to the climate decisions,
together with the state-machine facts it reads (`self.state_machine.state`,
`.sensors.window_open`, `.sensors.door_open`).  The last three fields belong
to the stale-air-flush feature; they are Modelled from the spec: they are
initialised by `tests/test_away_stale_flush.py` (lines 145-147) but absent
from `Orchestrator.__init__` in `src/orchestrator.py`. -/
structure OrchState where
  smState : OccState
  windowOpen : Bool
  doorOpen : Bool
  ervRunning : Bool
  ervSpeed : Speed
  co2History : List (ℚ × ℤ)
  outdoorCo2Baseline : Option ℤ
  plateauDetected : Bool
  awayStartTime : Option ℚ
  tvocAwayHistory : List (ℚ × ℤ)
  tvocAwayVentilationActive : Bool
  tvocBaseline : Option ℤ
  tvocPlateauDetected : Bool
  manualErv : Option ManualErv
  manualHvac : Option ManualHvac
  manualOverrideTimeout : ℚ
  hvacMode : HvacMode
  hvacSetpointC : ℚ
  hvacSuspended : Bool
  hvacLastMode : Option HvacMode
  roomClosedSince : Option ℚ
  flushActiveUntil : Option ℚ
  flushNextDueAt : Option ℚ
  deriving DecidableEq

/-- The field values assigned by `Orchestrator.__init__` (lines 92-150); the
state machine starts AWAY (state_machine.py line 84).  The three flush fields
start unset. -/
def orchInit : OrchState where
  smState := OccState.away
  windowOpen := false
  doorOpen := false
  ervRunning := false
  ervSpeed := Speed.off
  co2History := []
  outdoorCo2Baseline := none
  plateauDetected := false
  awayStartTime := none
  tvocAwayHistory := []
  tvocAwayVentilationActive := false
  tvocBaseline := none
  tvocPlateauDetected := false
  manualErv := none
  manualHvac := none
  manualOverrideTimeout := 1800
  hvacMode := HvacMode.off
  hvacSetpointC := 22
  hvacSuspended := false
  hvacLastMode := some HvacMode.heat
  roomClosedSince := none
  flushActiveUntil := none
  flushNextDueAt := none

/-! ## Orchestrator: helper computations -/

/-- `_calculate_co2_rate_of_change` / `_calculate_tvoc_rate_of_change`
(lines 266-290 and 374-398): signed rate in points per minute between the
oldest and the newest entry of the history window; `none` when fewer than two
samples or zero elapsed time. -/
def rateOfChange (hist : List (ℚ × ℤ)) : Option ℚ :=
  match hist, hist.getLast? with
  | (t0, v0) :: _ :: _, some (t1, v1) =>
    let timeDelta := (t1 - t0) / 60
    if timeDelta = 0 then none
    else some (((v1 - v0 : ℤ) : ℚ) / timeDelta)
  | _, _ => none

/-- `_detect_co2_plateau` (lines 292-328), as a pure function of the history
window: returns whether a plateau is detected together with the outdoor
baseline learned in that case (the caller stores it, matching the assignment
at line 324). -/
def detectCo2Plateau (cfg : Thresholds) (hist : List (ℚ × ℤ)) : Bool × Option ℤ :=
  if ¬cfg.co2PlateauEnabled then (false, none)
  else if hist.length < max 20 (2 * cfg.co2PlateauWindowMinutes) then (false, none)
  else
    match hist.getLast? with
    | none => (false, none)
    | some (_, current) =>
      if current > cfg.co2PlateauMinCo2 then (false, none)
      else
        match rateOfChange hist with
        | none => (false, none)
        | some rate =>
          if |rate| < cfg.co2PlateauRateThreshold then (true, some current)
          else (false, none)

/-- `_get_adaptive_erv_speed_for_away` (lines 330-372), as a pure function.
Returns the recommended speed together with the plateau flag and baseline the
call sets on the orchestrator when a plateau is detected (lines 341-343);
the caller applies those writes.  The `co2` parameter of the Python method is
used only in log strings and is omitted. -/
def adaptiveAwayCo2 (cfg : Thresholds) (hist : List (ℚ × ℤ))
    (awayStart : Option ℚ) (now : ℚ) : Option Speed × Bool × Option ℤ :=
  if ¬cfg.co2AdaptiveSpeedEnabled then (none, false, none)
  else
    let pl := detectCo2Plateau cfg hist
    if pl.1 then (some Speed.off, true, pl.2)
    else
      let inTurboWindow :=
        match awayStart with
        | some t0 => decide ((now - t0) / 60 < cfg.co2TurboDurationMinutes)
        | none => false
      if inTurboWindow then (some Speed.turbo, false, none)
      else
        match rateOfChange hist with
        | none => (none, false, none)
        | some rate =>
          let absRate := |rate|
          if absRate > cfg.co2RateTurboThreshold then (some Speed.turbo, false, none)
          else if absRate > cfg.co2RateMediumThreshold then (some Speed.medium, false, none)
          else if absRate > cfg.co2RateQuietThreshold then (some Speed.quiet, false, none)
          else (some Speed.quiet, false, none)

/-- `_detect_tvoc_plateau` (lines 400-436), as a pure function of the tVOC
history window (minimum readings hard-coded to 20, target margin `+ 20`). -/
def detectTvocPlateau (cfg : Thresholds) (hist : List (ℚ × ℤ)) : Bool × Option ℤ :=
  if ¬cfg.tvocAwayEnabled then (false, none)
  else if hist.length < 20 then (false, none)
  else
    match hist.getLast? with
    | none => (false, none)
    | some (_, current) =>
      if current > cfg.tvocAwayTarget + 20 then (false, none)
      else
        match rateOfChange hist with
        | none => (false, none)
        | some rate =>
          if |rate| < cfg.tvocPlateauRateThreshold then (true, some current)
          else (false, none)

/-- `_get_adaptive_erv_speed_for_tvoc_away` (lines 438-471), as a pure
function; like `adaptiveAwayCo2` it reports the plateau writes for the caller
to apply (lines 448-451).  There is no turbo window for tVOC. -/
def adaptiveAwayTvoc (cfg : Thresholds) (hist : List (ℚ × ℤ)) :
    Option Speed × Bool × Option ℤ :=
  if ¬cfg.tvocAwayEnabled then (none, false, none)
  else
    let pl := detectTvocPlateau cfg hist
    if pl.1 then (some Speed.off, true, pl.2)
    else
      match rateOfChange hist with
      | none => (none, false, none)
      | some rate =>
        let absRate := |rate|
        if absRate > cfg.tvocRateTurboThreshold then (some Speed.turbo, false, none)
        else if absRate > cfg.tvocRateMediumThreshold then (some Speed.medium, false, none)
        else if absRate > cfg.tvocRateQuietThreshold then (some Speed.quiet, false, none)
        else (some Speed.quiet, false, none)

/-- `elapsed > self._manual_override_timeout` for an optional override record
(`_check_manual_override_expiry`, lines 246-264). -/
def overrideExpired (setAt : Option ℚ) (timeout now : ℚ) : Bool :=
  setAt.any fun t => decide (now - t > timeout)

/-- `_check_manual_override_expiry` (lines 246-264): clears each override whose
elapsed time exceeds the timeout. -/
def checkManualOverrideExpiry (s : OrchState) (now : ℚ) : OrchState :=
  let s :=
    if overrideExpired (s.manualErv.map ManualErv.setAt) s.manualOverrideTimeout now then
      { s with manualErv := none }
    else s
  if overrideExpired (s.manualHvac.map ManualHvac.setAt) s.manualOverrideTimeout now then
    { s with manualHvac := none }
  else s

/-- `_clear_manual_overrides` (lines 764-775): unconditionally clears both
overrides. -/
def clearManualOverrides (s : OrchState) : OrchState :=
  { s with manualErv := none, manualHvac := none }

/-! ## Orchestrator: ERV evaluation -/

/-- A command sent to the ERV actuator (`self.erv.turn_off()` /
`self.erv.turn_on(fan_speed)`). -/
inductive ErvAction
  | turnOff
  | turnOn (speed : Speed)
  deriving DecidableEq

/-- A command sent to the HVAC (Kumo) actuator. -/
inductive HvacAction
  | turnOff
  | setHeat (setpointC : ℚ)
  | setCool (setpointC : ℚ)
  deriving DecidableEq

/-- Which subsystem an audit (climate-action) row concerns. -/
inductive AuditSystem
  | erv
  | hvac
  deriving DecidableEq

/-- The machine-readable reason recorded by `db.log_climate_action`. -/
inductive AuditReason
  | safetyInterlock
  | presentCo2Critical
  | co2Plateau
  | targetsReached
  | awayAdaptive (speed : Speed)
  | airQualityOk
  | awayRefresh
  | manualOverride
  | presentRestore
  | criticalTemp
  | ervRunningTemp
  | ervStoppedOccupancyHours
  | staleFlushDue
  deriving DecidableEq

/-- A `db.log_climate_action` audit event. -/
structure Audit where
  system : AuditSystem
  reason : AuditReason
  deriving DecidableEq

/-- Result of one ERV evaluation: the updated orchestrator state, the actuator
commands issued, and the audit events written to the database. -/
structure ErvResult where
  state : OrchState
  actions : List ErvAction
  audits : List Audit
  deriving DecidableEq

/-- The PRESENT branch of `_evaluate_erv_state` (lines 534-558): CO2-only
hysteresis; tVOC is ignored while PRESENT. -/
def presentBranch (cfg : Thresholds) (s : OrchState) (co2 : Option ℤ) : ErvResult :=
  let co2CriticalOn := co2.any fun c => decide (c ≥ cfg.co2CriticalPpm)
  let co2CriticalOff := co2.any fun c =>
    decide (c < cfg.co2CriticalPpm - cfg.co2CriticalHysteresisPpm)
  if co2CriticalOn then
    if ¬s.ervRunning ∨ s.ervSpeed ≠ Speed.quiet then
      { state := { s with ervRunning := true, ervSpeed := Speed.quiet },
        actions := [ErvAction.turnOn Speed.quiet],
        audits := [⟨AuditSystem.erv, AuditReason.presentCo2Critical⟩] }
    else { state := s, actions := [], audits := [] }
  else if s.ervRunning ∧ s.ervSpeed = Speed.quiet then
    if co2CriticalOff then
      { state := { s with ervRunning := false, ervSpeed := Speed.off },
        actions := [ErvAction.turnOff], audits := [] }
    else { state := s, actions := [], audits := [] }
  else if s.ervRunning then
    { state := { s with ervRunning := false, ervSpeed := Speed.off },
      actions := [ErvAction.turnOff], audits := [] }
  else { state := s, actions := [], audits := [] }

/-- Lines 565-570 of `_evaluate_erv_state`: obtain the CO2 adaptive
recommendation (only when a refresh is needed) and apply the plateau writes
`_get_adaptive_erv_speed_for_away` performs on the orchestrator. -/
def awayCo2Step (cfg : Thresholds) (s : OrchState) (now : ℚ) (co2 : Option ℤ) :
    Option Speed × OrchState :=
  let co2NeedsRefresh := co2.any fun c => decide (c > cfg.co2RefreshTargetPpm)
  let cA :=
    if co2NeedsRefresh then adaptiveAwayCo2 cfg s.co2History s.awayStartTime now
    else (none, false, none)
  (cA.1,
   if cA.2.1 then { s with plateauDetected := true, outdoorCo2Baseline := cA.2.2 }
   else s)

/-- Lines 572-582 of `_evaluate_erv_state`: the tVOC part of the AWAY branch,
ending active tVOC ventilation at target, otherwise computing the tVOC
recommendation (with its plateau writes) and latching the
`_tvoc_away_ventilation_active` flag when tVOC is high. -/
def awayTvocStep (cfg : Thresholds) (s : OrchState) (tvoc : Option ℤ) :
    Option Speed × OrchState :=
  let tvocNeedsClearing := tvoc.any fun v => decide (v > cfg.tvocAwayThreshold)
  let tvocAtTarget := tvoc.any fun v => decide (v ≤ cfg.tvocAwayTarget)
  if tvocNeedsClearing ∨ s.tvocAwayVentilationActive then
    if tvocAtTarget ∧ s.tvocAwayVentilationActive then
      ((none : Option Speed),
       { s with tvocAwayVentilationActive := false, tvocPlateauDetected := false })
    else
      let r := adaptiveAwayTvoc cfg s.tvocAwayHistory
      let s :=
        if r.2.1 then { s with tvocPlateauDetected := true, tvocBaseline := r.2.2 }
        else s
      let s :=
        if ¬s.tvocAwayVentilationActive ∧ tvocNeedsClearing then
          { s with tvocAwayVentilationActive := true }
        else s
      (r.1, s)
  else (none, s)

/-- Lines 584-640 of `_evaluate_erv_state`: combine the two recommendations by
the fixed speed priority and drive the actuator. -/
def awayCombine (co2Adaptive tvocAdaptive : Option Speed)
    (co2NeedsRefresh : Bool) (s : OrchState) : ErvResult :=
  if co2Adaptive = some Speed.off ∧
      (tvocAdaptive = some Speed.off ∨ ¬s.tvocAwayVentilationActive) then
    if s.ervRunning then
      { state := { s with ervRunning := false, ervSpeed := Speed.off },
        actions := [ErvAction.turnOff],
        audits := [⟨AuditSystem.erv,
          if s.plateauDetected then AuditReason.co2Plateau
          else AuditReason.targetsReached⟩] }
    else { state := s, actions := [], audits := [] }
  else if prioOpt co2Adaptive ≥ 0 ∨ prioOpt tvocAdaptive ≥ 0 then
    let target := if prioOpt co2Adaptive ≥ prioOpt tvocAdaptive then co2Adaptive
                  else tvocAdaptive
    match target with
    | some sp =>
      if sp ≠ Speed.off then
        if ¬s.ervRunning ∨ s.ervSpeed ≠ sp then
          { state := { s with ervRunning := true, ervSpeed := sp },
            actions := [ErvAction.turnOn sp],
            audits := [⟨AuditSystem.erv, AuditReason.awayAdaptive sp⟩] }
        else { state := s, actions := [], audits := [] }
      else { state := s, actions := [], audits := [] }
    | none => { state := s, actions := [], audits := [] }
  else if ¬co2NeedsRefresh ∧ ¬s.tvocAwayVentilationActive then
    if s.ervRunning then
      { state := { s with ervRunning := false, ervSpeed := Speed.off },
        actions := [ErvAction.turnOff],
        audits := [⟨AuditSystem.erv, AuditReason.airQualityOk⟩] }
    else { state := s, actions := [], audits := [] }
  else
    if ¬s.ervRunning ∨ s.ervSpeed ≠ Speed.turbo then
      { state := { s with ervRunning := true, ervSpeed := Speed.turbo },
        actions := [ErvAction.turnOn Speed.turbo],
        audits := [⟨AuditSystem.erv, AuditReason.awayRefresh⟩] }
    else { state := s, actions := [], audits := [] }

/-- The AWAY branch of `_evaluate_erv_state` (lines 560-640): CO2 step, then
tVOC step on the updated state, then the combined actuator decision. -/
def awayBranch (cfg : Thresholds) (s : OrchState) (now : ℚ)
    (co2 tvoc : Option ℤ) : ErvResult :=
  let co2NeedsRefresh := co2.any fun c => decide (c > cfg.co2RefreshTargetPpm)
  let c := awayCo2Step cfg s now co2
  let t := awayTvocStep cfg c.2 tvoc
  awayCombine c.1 t.1 co2NeedsRefresh t.2

/-- The body of `_evaluate_erv_state` after the override-expiry check
(lines 485-640): safety interlock first, then an active manual override,
then the occupancy-dependent automatic logic. -/
def evalBody (cfg : Thresholds) (s : OrchState) (now : ℚ)
    (co2 tvoc : Option ℤ) : ErvResult :=
  if s.windowOpen ∨ s.doorOpen then
    if s.ervRunning then
      { state := { s with ervRunning := false, ervSpeed := Speed.off,
                          tvocAwayVentilationActive := false },
        actions := [ErvAction.turnOff],
        audits := [⟨AuditSystem.erv, AuditReason.safetyInterlock⟩] }
    else { state := s, actions := [], audits := [] }
  else
    match s.manualErv with
    | some m =>
      if m.speed = Speed.off then
        if s.ervRunning then
          { state := { s with ervRunning := false, ervSpeed := Speed.off },
            actions := [ErvAction.turnOff], audits := [] }
        else { state := s, actions := [], audits := [] }
      else
        if ¬s.ervRunning ∨ s.ervSpeed ≠ m.speed then
          { state := { s with ervRunning := true, ervSpeed := m.speed },
            actions := [ErvAction.turnOn m.speed], audits := [] }
        else { state := s, actions := [], audits := [] }
    | none =>
      if s.smState = OccState.present then presentBranch cfg s co2
      else awayBranch cfg s now co2 tvoc

/-- `_evaluate_erv_state` (lines 473-646): checks override expiry, then runs
the decision body.  `co2` and `tvoc` are the fields of
`self.qingping.latest_reading` (both `none` when no reading exists).  The
HVAC re-evaluation scheduled at the end (lines 642-646) is the separately
embedded `evaluateHvacState`. -/
def evaluateErvState (cfg : Thresholds) (s : OrchState) (now : ℚ)
    (co2 tvoc : Option ℤ) : ErvResult :=
  evalBody cfg (checkManualOverrideExpiry s now) now co2 tvoc

/-! ## Orchestrator: HVAC evaluation -/

/-- The relevant part of the `get_full_status()` reply used at lines 723-726
and 807-808: the device's power flag and operating mode. -/
structure DeviceStatus where
  power : ℤ
  operationMode : HvacMode
  deriving DecidableEq

/-- Result of one HVAC evaluation. -/
structure HvacResult where
  state : OrchState
  actions : List HvacAction
  audits : List Audit
  deriving DecidableEq

/-- `_evaluate_hvac_state` (lines 666-762).  `tempF` is `_get_temp_f()`,
`devStatus` the `get_full_status()` reply fetched in the suspend branch,
`withinOccupancyHours` the `_is_within_occupancy_hours()` wall-clock check and
`kumoConfigured` whether `self.kumo` is set.  Note that none of the manual
override fields are read anywhere in this method. -/
def evaluateHvacState (cfg : Thresholds) (s : OrchState) (tempF : Option ℚ)
    (devStatus : Option DeviceStatus) (withinOccupancyHours : Bool)
    (kumoConfigured : Bool) : HvacResult :=
  if ¬kumoConfigured then { state := s, actions := [], audits := [] }
  else if s.smState = OccState.present then
    if s.hvacSuspended ∧ s.hvacLastMode.any HvacMode.isOn then
      let actions :=
        match s.hvacLastMode with
        | some HvacMode.heat => [HvacAction.setHeat s.hvacSetpointC]
        | some HvacMode.cool => [HvacAction.setCool s.hvacSetpointC]
        | _ => []
      { state := { s with hvacMode := s.hvacLastMode.getD HvacMode.off,
                          hvacSuspended := false },
        actions := actions,
        audits := [⟨AuditSystem.hvac, AuditReason.presentRestore⟩] }
    else { state := { s with hvacSuspended := false }, actions := [], audits := [] }
  else
    if tempF.any fun t => decide (t < cfg.hvacCriticalTempF) then
      if s.hvacSuspended ∨ s.hvacMode = HvacMode.off then
        { state := { s with hvacMode := HvacMode.heat, hvacSuspended := false },
          actions := [HvacAction.setHeat s.hvacSetpointC],
          audits := [⟨AuditSystem.hvac, AuditReason.criticalTemp⟩] }
      else { state := s, actions := [], audits := [] }
    else if s.ervRunning ∧ tempF.any fun t => decide (t > cfg.hvacMinTempF) then
      if ¬s.hvacSuspended then
        match devStatus with
        | some st =>
          let deviceMode := if st.power = 1 then st.operationMode else HvacMode.off
          if deviceMode.isOn then
            { state := { s with hvacLastMode := some deviceMode,
                                hvacMode := HvacMode.off, hvacSuspended := true },
              actions := [HvacAction.turnOff],
              audits := [⟨AuditSystem.hvac, AuditReason.ervRunningTemp⟩] }
          else { state := s, actions := [], audits := [] }
        | none => { state := s, actions := [], audits := [] }
      else { state := s, actions := [], audits := [] }
    else if ¬s.ervRunning ∧ s.hvacSuspended then
      if withinOccupancyHours ∧ s.hvacLastMode.any HvacMode.isOn then
        let actions :=
          match s.hvacLastMode with
          | some HvacMode.heat => [HvacAction.setHeat s.hvacSetpointC]
          | some HvacMode.cool => [HvacAction.setCool s.hvacSetpointC]
          | _ => []
        { state := { s with hvacMode := s.hvacLastMode.getD HvacMode.off,
                            hvacSuspended := false },
          actions := actions,
          audits := [⟨AuditSystem.hvac, AuditReason.ervStoppedOccupancyHours⟩] }
      else { state := s, actions := [], audits := [] }
    else { state := s, actions := [], audits := [] }

/-! ## Orchestrator: manual-control entry points and the state-change handler -/

/-- `_handle_erv_post` (lines 948-1003) on a valid speed: records the manual
override and applies the requested speed immediately.  There is no
window/door interlock check anywhere on this path; note also that on
`turn_on` the handler updates `_erv_running` but not `_erv_speed`
(lines 982-983). -/
def handleErvPost (s : OrchState) (now : ℚ) (speed : Speed) : ErvResult :=
  let s := { s with manualErv := some ⟨speed, now⟩ }
  if speed = Speed.off then
    { state := { s with ervRunning := false, ervSpeed := Speed.off },
      actions := [ErvAction.turnOff],
      audits := [⟨AuditSystem.erv, AuditReason.manualOverride⟩] }
  else
    { state := { s with ervRunning := true },
      actions := [ErvAction.turnOn speed],
      audits := [⟨AuditSystem.erv, AuditReason.manualOverride⟩] }

/-- `_handle_hvac_post` (lines 1005-1070) on a valid mode (`off` or `heat`):
records the manual override, clears the suspension flag and the remembered
last mode (lines 1036-1038), and applies the change. -/
def handleHvacPost (s : OrchState) (now : ℚ) (mode : HvacMode)
    (setpointF : ℚ) : HvacResult :=
  if mode ≠ HvacMode.off ∧ mode ≠ HvacMode.heat then
    { state := s, actions := [], audits := [] }
  else
    let setpointC := (setpointF - 32) * 5 / 9
    let s := { s with manualHvac := some ⟨mode, setpointF, now⟩,
                      hvacSuspended := false, hvacLastMode := none }
    if mode = HvacMode.off then
      { state := { s with hvacMode := HvacMode.off },
        actions := [HvacAction.turnOff],
        audits := [⟨AuditSystem.hvac, AuditReason.manualOverride⟩] }
    else
      { state := { s with hvacMode := HvacMode.heat, hvacSetpointC := setpointC },
        actions := [HvacAction.setHeat setpointC],
        audits := [⟨AuditSystem.hvac, AuditReason.manualOverride⟩] }

/-- `_on_state_change` (lines 859-913) up to the point where control leaves
the handler.  Line 875 reads `self._tvoc_history`, an attribute that is never
assigned anywhere in the class (the tVOC window lives in
`_tvoc_away_history`), so on a transition into AWAY the handler raises
`AttributeError` immediately after clearing the CO2 history (line 874); the
statements that would record the AWAY entry time (line 876), log the change
and re-evaluate never execute.  The returned Bool records whether that
exception was raised (it is caught by `_notify_state_change`, so the
transition itself stays committed).  On a transition into PRESENT the handler
completes normally; the re-evaluation it then performs is the separately
embedded `evaluateErvState`. -/
def onStateChange (s : OrchState) (_now : ℚ) (_oldState newState : OccState) :
    OrchState × Bool :=
  let s := clearManualOverrides s
  if newState = OccState.away then
    ({ s with co2History := [] }, true)
  else
    let s := { s with awayStartTime := none }
    let s :=
      if s.tvocAwayVentilationActive then
        { s with tvocAwayVentilationActive := false, tvocPlateauDetected := false }
      else s
    let s :=
      if s.plateauDetected then { s with plateauDetected := false } else s
    (s, false)

/-! ## Stale-air flush (modelled from the spec) -/

/-- Modelled from the spec: the `away_stale_flush_*` fields that
`tests/test_away_stale_flush.py` passes to `ThresholdsConfig` but that are
missing from `src/config.py`; defaults per spec §4.3 rule 5 (every 8 hours,
30 minutes, MEDIUM). -/
structure FlushConfig where
  enabled : Bool := true
  intervalHours : ℚ := 8
  durationMinutes : ℚ := 30
  speed : Speed := Speed.medium
  deriving DecidableEq

/-- Modelled from the spec: `_update_room_closed_tracking`, which is called by
`tests/test_away_stale_flush.py` (line 220) but missing from
`src/orchestrator.py`.  Opening the door or window clears the next-due time
and the active window and restarts accumulation; while closed, accumulation
starts from the close event. -/
def updateRoomClosedTracking (s : OrchState) (now : ℚ) : OrchState :=
  if s.doorOpen ∨ s.windowOpen then
    { s with roomClosedSince := none, flushActiveUntil := none,
             flushNextDueAt := none }
  else
    match s.roomClosedSince with
    | none => { s with roomClosedSince := some now }
    | some _ => s

/-- The speed the ERV effectively runs at after an evaluation. -/
def effectiveSpeed (s : OrchState) : Speed :=
  if s.ervRunning then s.ervSpeed else Speed.off

/-- Modelled from the spec: the stale-air-flush overlay of
`_evaluate_erv_state`, which the tests exercise but which is missing from
`src/orchestrator.py`.  It applies only in the automatic AWAY region (below
the safety interlock and the manual override in the priority order): a flush
window is started when the next-due time has passed and the room has been
continuously closed for at least the configured interval; while a flush
window is active the configured flush speed acts as a floor that never
downgrades the adaptive decision. -/
def applyFlushFloor (fc : FlushConfig) (r : ErvResult) : ErvResult :=
  if speedRank fc.speed > speedRank (effectiveSpeed r.state) then
    { state := { r.state with ervRunning := true, ervSpeed := fc.speed },
      actions := r.actions ++ [ErvAction.turnOn fc.speed],
      audits := r.audits ++ [⟨AuditSystem.erv, AuditReason.staleFlushDue⟩] }
  else r

/-- Modelled from the spec: `_evaluate_erv_state` with the stale-air-flush
branch (spec §4.3 rule 5): the translated automatic logic runs first, then,
while AWAY with the room closed and no manual override, a due flush is
scheduled and an active flush raises the speed floor. -/
def evaluateErvStateWithFlush (cfg : Thresholds) (fc : FlushConfig)
    (s0 : OrchState) (now : ℚ) (co2 tvoc : Option ℤ) : ErvResult :=
  let base := evaluateErvState cfg s0 now co2 tvoc
  let s := base.state
  if fc.enabled ∧ s.smState = OccState.away ∧ ¬(s.windowOpen ∨ s.doorOpen) ∧
      s.manualErv = none then
    if s.flushActiveUntil.any fun u => decide (now < u) then
      applyFlushFloor fc base
    else if (s.flushNextDueAt.any fun d => decide (now ≥ d)) ∧
        (s.roomClosedSince.any fun t =>
          decide (now - t ≥ fc.intervalHours * 3600)) then
      let s := { s with flushActiveUntil := some (now + fc.durationMinutes * 60),
                        flushNextDueAt := some (now + fc.intervalHours * 3600) }
      applyFlushFloor fc { base with state := s }
    else base
  else base

/-! ## Helper lemmas -/

/-- `smEvaluate` never commits a PRESENT→AWAY transition: that is reserved to
the two timer bodies. -/
theorem smEvaluate_stays_present (cfg : StateCfg) (s : SmState) (now : ℚ)
    (h : s.state = OccState.present) :
    ((smEvaluate cfg s now).1).state = OccState.present := by
  unfold smEvaluate startDoorOpenAwayTimer
  dsimp only
  split
  · split
    · simp_all
    · split <;> simp_all
  · split <;> simp_all

/-- `smEvaluate` does not touch the departure-verification timer. -/
theorem smEvaluate_verifying (cfg : StateCfg) (s : SmState) (now : ℚ) :
    ((smEvaluate cfg s now).1).verifyingDeparture = s.verifyingDeparture := by
  unfold smEvaluate startDoorOpenAwayTimer
  dsimp only
  split
  · split
    · split <;> simp_all
    · split
      · split <;> simp_all
      · simp_all
  · split <;> simp_all

/-- Cancelling the departure verification always leaves it not pending. -/
theorem cancelDepartureVerification_verifying (s : SmState) :
    (cancelDepartureVerification s).verifyingDeparture = false := by
  unfold cancelDepartureVerification
  split <;> simp_all

/-- The other sensor-update entry points and the timer-cancel and start
helpers never change the occupancy state field. -/
theorem cancelDepartureVerification_state (s : SmState) :
    (cancelDepartureVerification s).state = s.state := by
  unfold cancelDepartureVerification; split <;> rfl

theorem cancelDoorOpenAwayTimer_state (s : SmState) :
    (cancelDoorOpenAwayTimer s).state = s.state := by
  unfold cancelDoorOpenAwayTimer; split <;> rfl

theorem startDepartureVerification_state (s : SmState) :
    (startDepartureVerification s).state = s.state := by
  unfold startDepartureVerification; split <;> rfl

/-! ## C10 -/

/-- C10: in door-held-open mode (door open for at least the configured 5
minutes), `is_present` counts workstation activity with no recency bound:
whenever the external monitor is connected and any activity timestamp greater
than zero was ever recorded, `is_present` returns true, however old that
activity is and with no comparison against the door's last-change
timestamp. -/
theorem c10_door_open_mode_stale_activity (cfg : StateCfg) (s : SmState)
    (now : ℚ) (hmode : inDoorOpenMode cfg s now = true)
    (hmon : s.externalMonitor = true) (hact : s.macLastActive > 0) :
    isPresent cfg s now = true := by
  unfold isPresent
  rw [hmode]
  simp [hmon, hact]

/-- A concrete door-held-open state whose only presence signal is a
workstation-activity timestamp from far before the door last changed. -/
def sC10 : SmState where
  state := OccState.away
  macLastActive := 1
  externalMonitor := true
  motionDetected := false
  motionLastSeen := 0
  doorOpen := true
  doorLastChanged := 1000000
  windowOpen := false
  co2Ppm := 400
  lastDoorState := some true
  verifyingDeparture := false
  doorOpenAwayPending := false

/-- Witness for C10 at a concrete input: the activity timestamp (1) is far
older than the door's last change (1000000), yet in door-open mode (door open
for 6 minutes) it still registers as presence. -/
theorem c10_witness :
    inDoorOpenMode {} sC10 1000360 = true ∧ sC10.macLastActive > 0 ∧
      sC10.macLastActive < sC10.doorLastChanged ∧
      isPresent {} sC10 1000360 = true :=
  ⟨by simp only [inDoorOpenMode, sC10]; norm_num,
   by norm_num [sC10], by norm_num [sC10],
   c10_door_open_mode_stale_activity {} sC10 1000360
     (by simp only [inDoorOpenMode, sC10]; norm_num) rfl (by norm_num [sC10])⟩

/-! ## C6 -/

/-- C6: while the departure-verification timer is pending the occupancy state
stays PRESENT under every sensor-update entry point and under plain
re-evaluation (only the timer bodies can commit PRESENT→AWAY, and the
door-open-away timer body does nothing while the door is closed); a motion
detection, or workstation activity newer than the door's last change, cancels
the pending timer (and the state stays PRESENT); and when the timer elapses
still pending with the machine PRESENT, it commits AWAY and zeroes the stored
motion signal (`motion_detected := false`, `motion_last_seen := 0`). -/
theorem c6_departure_verification :
    (∀ cfg s d now, s.state = OccState.present →
      ((updateMotion cfg s d now).1).state = OccState.present) ∧
    (∀ cfg s ts m now, s.state = OccState.present →
      ((updateMacOccupancy cfg s ts m now).1).state = OccState.present) ∧
    (∀ cfg s b now, s.state = OccState.present →
      ((updateDoor cfg s b now).1).state = OccState.present) ∧
    (∀ cfg s b now, s.state = OccState.present →
      ((updateWindow cfg s b now).1).state = OccState.present) ∧
    (∀ cfg s now, s.state = OccState.present →
      ((smEvaluate cfg s now).1).state = OccState.present) ∧
    (∀ cfg s now, s.state = OccState.present → s.doorOpen = false →
      ((doorOpenAwayTimerFire cfg s now).1).state = OccState.present) ∧
    (∀ cfg s now, s.verifyingDeparture = true →
      ((updateMotion cfg s true now).1).verifyingDeparture = false ∧
      (s.state = OccState.present →
        ((updateMotion cfg s true now).1).state = OccState.present)) ∧
    (∀ cfg s ts m now, s.verifyingDeparture = true → ts > s.doorLastChanged →
      ((updateMacOccupancy cfg s ts m now).1).verifyingDeparture = false ∧
      (s.state = OccState.present →
        ((updateMacOccupancy cfg s ts m now).1).state = OccState.present)) ∧
    (∀ s, s.verifyingDeparture = true → s.state = OccState.present →
      departureTimerFire s =
        ({ s with state := OccState.away, motionLastSeen := 0,
                  motionDetected := false, verifyingDeparture := false }, true)) := by
  refine ⟨?_, ?_, ?_, ?_, ?_, ?_, ?_, ?_, ?_⟩
  · intro cfg s d now h
    unfold updateMotion
    dsimp only
    apply smEvaluate_stays_present
    split
    · rw [cancelDepartureVerification_state]; exact h
    · exact h
  · intro cfg s ts m now h
    unfold updateMacOccupancy
    dsimp only
    apply smEvaluate_stays_present
    split
    · rw [cancelDepartureVerification_state]; exact h
    · exact h
  · intro cfg s b now h
    unfold updateDoor
    dsimp only
    apply smEvaluate_stays_present
    split
    · rw [startDepartureVerification_state, cancelDoorOpenAwayTimer_state]; exact h
    · exact h
  · intro cfg s b now h
    unfold updateWindow
    exact smEvaluate_stays_present _ _ _ h
  · intro cfg s now h
    exact smEvaluate_stays_present _ _ _ h
  · intro cfg s now hp hdoor
    unfold doorOpenAwayTimerFire
    have : inDoorOpenMode cfg s now = false := by
      unfold inDoorOpenMode; rw [hdoor]; rfl
    split
    · split
      · simp_all
      · simp_all
    · simp_all
  · intro cfg s now hv
    constructor
    · unfold updateMotion
      dsimp only
      rw [smEvaluate_verifying]
      split
      · exact cancelDepartureVerification_verifying _
      · simp_all
    · intro hp
      unfold updateMotion
      dsimp only
      apply smEvaluate_stays_present
      split
      · rw [cancelDepartureVerification_state]; exact hp
      · exact hp
  · intro cfg s ts m now hv hts
    constructor
    · unfold updateMacOccupancy
      dsimp only
      rw [smEvaluate_verifying]
      split
      · exact cancelDepartureVerification_verifying _
      · simp_all
    · intro hp
      unfold updateMacOccupancy
      dsimp only
      apply smEvaluate_stays_present
      split
      · rw [cancelDepartureVerification_state]; exact hp
      · exact hp
  · intro s hv hp
    unfold departureTimerFire
    rw [hv, hp]
    simp

/-- A concrete PRESENT state with the departure-verification timer pending
(door just closed at time 40). -/
def sC6 : SmState where
  state := OccState.present
  macLastActive := 10
  externalMonitor := true
  motionDetected := false
  motionLastSeen := 20
  doorOpen := false
  doorLastChanged := 40
  windowOpen := false
  co2Ppm := 800
  lastDoorState := some false
  verifyingDeparture := true
  doorOpenAwayPending := false

/-- Witness for C6 at concrete inputs: motion at time 45 cancels the pending
timer and leaves PRESENT; workstation activity stamped 50 (after the door
change at 40) cancels it too; and if instead the timer fires while pending,
the machine commits AWAY with the motion signal zeroed. -/
theorem c6_witness :
    sC6.verifyingDeparture = true ∧ sC6.state = OccState.present ∧
      ((updateMotion {} sC6 true 45).1).verifyingDeparture = false ∧
      ((updateMotion {} sC6 true 45).1).state = OccState.present ∧
      (50 : ℚ) > sC6.doorLastChanged ∧
      ((updateMacOccupancy {} sC6 50 true 55).1).verifyingDeparture = false ∧
      ((updateMacOccupancy {} sC6 50 true 55).1).state = OccState.present ∧
      departureTimerFire sC6 =
        ({ sC6 with state := OccState.away, motionLastSeen := 0,
                    motionDetected := false, verifyingDeparture := false }, true) :=
  ⟨rfl, rfl,
   (c6_departure_verification.2.2.2.2.2.2.1 {} sC6 45 rfl).1,
   (c6_departure_verification.2.2.2.2.2.2.1 {} sC6 45 rfl).2 rfl,
   by norm_num [sC6],
   (c6_departure_verification.2.2.2.2.2.2.2.1 {} sC6 50 true 55 rfl
     (by norm_num [sC6])).1,
   (c6_departure_verification.2.2.2.2.2.2.2.1 {} sC6 50 true 55 rfl
     (by norm_num [sC6])).2 rfl,
   c6_departure_verification.2.2.2.2.2.2.2.2 sC6 rfl rfl⟩

/-! ## C8 -/

/-- Normal form of `_check_manual_override_expiry`: each override is cleared
exactly when its elapsed time exceeds the timeout. -/
theorem checkManualOverrideExpiry_eq (s : OrchState) (now : ℚ) :
    checkManualOverrideExpiry s now =
      { s with
        manualErv := if overrideExpired (s.manualErv.map ManualErv.setAt)
            s.manualOverrideTimeout now then none else s.manualErv,
        manualHvac := if overrideExpired (s.manualHvac.map ManualHvac.setAt)
            s.manualOverrideTimeout now then none else s.manualHvac } := by
  unfold checkManualOverrideExpiry
  dsimp only
  split <;> split <;> simp_all

/-- C8: an override set at time `setAt` with the 30-minute timeout stops
applying as soon as an evaluation sees `now - setAt > timeout` (the expiry
check runs at the start of every ERV evaluation, and an evaluation after the
deadline behaves exactly like one with the override already cleared), is kept
while `now - setAt ≤ timeout`, and every committed occupancy state transition
clears both overrides unconditionally as the handler's first action. -/
theorem c8_override_expiry_and_state_change_clearing :
    (∀ s now m, s.manualErv = some m → now - m.setAt > s.manualOverrideTimeout →
      (checkManualOverrideExpiry s now).manualErv = none) ∧
    (∀ s now m, s.manualErv = some m →
      ¬(now - m.setAt > s.manualOverrideTimeout) →
      (checkManualOverrideExpiry s now).manualErv = some m) ∧
    (∀ s now m, s.manualHvac = some m →
      now - m.setAt > s.manualOverrideTimeout →
      (checkManualOverrideExpiry s now).manualHvac = none) ∧
    (∀ s now m, s.manualHvac = some m →
      ¬(now - m.setAt > s.manualOverrideTimeout) →
      (checkManualOverrideExpiry s now).manualHvac = some m) ∧
    (∀ cfg s now co2 tvoc m, s.manualErv = some m →
      now - m.setAt > s.manualOverrideTimeout →
      evaluateErvState cfg s now co2 tvoc =
        evaluateErvState cfg { s with manualErv := none } now co2 tvoc) ∧
    (∀ s now oldState newState,
      ((onStateChange s now oldState newState).1).manualErv = none ∧
      ((onStateChange s now oldState newState).1).manualHvac = none) := by
  refine ⟨?_, ?_, ?_, ?_, ?_, ?_⟩
  · intro s now m h1 h2
    rw [checkManualOverrideExpiry_eq]
    simp [h1, overrideExpired, h2]
  · intro s now m h1 h2
    rw [checkManualOverrideExpiry_eq]
    simp [h1, overrideExpired, h2]
  · intro s now m h1 h2
    rw [checkManualOverrideExpiry_eq]
    simp [h1, overrideExpired, h2]
  · intro s now m h1 h2
    rw [checkManualOverrideExpiry_eq]
    simp [h1, overrideExpired, h2]
  · intro cfg s now co2 tvoc m h1 h2
    unfold evaluateErvState
    congr 1
    rw [checkManualOverrideExpiry_eq, checkManualOverrideExpiry_eq]
    simp [h1, overrideExpired, h2]
  · intro s now oldState newState
    unfold onStateChange clearManualOverrides
    dsimp only
    split
    · simp
    · constructor <;> (split <;> split <;> simp_all)

/-- A concrete state with both manual overrides set at time 0. -/
def sC8 : OrchState :=
  { orchInit with manualErv := some ⟨Speed.turbo, 0⟩,
                  manualHvac := some ⟨HvacMode.heat, 70, 0⟩ }

/-- Witness for C8 at concrete inputs: at `now = 1801 > 1800` both overrides
are cleared by the expiry check (and the whole evaluation behaves like one
without the override); at `now = 900` the ERV override is kept; a state
change clears both overrides. -/
theorem c8_witness :
    sC8.manualErv = some ⟨Speed.turbo, 0⟩ ∧
      (1801 : ℚ) - 0 > sC8.manualOverrideTimeout ∧
      ¬((900 : ℚ) - 0 > sC8.manualOverrideTimeout) ∧
      (checkManualOverrideExpiry sC8 1801).manualErv = none ∧
      (checkManualOverrideExpiry sC8 1801).manualHvac = none ∧
      (checkManualOverrideExpiry sC8 900).manualErv = some ⟨Speed.turbo, 0⟩ ∧
      evaluateErvState {} sC8 1801 (some 900) none =
        evaluateErvState {} { sC8 with manualErv := none } 1801 (some 900) none ∧
      ((onStateChange sC8 100 OccState.present OccState.away).1).manualErv = none :=
  ⟨rfl, by norm_num [sC8, orchInit], by norm_num [sC8, orchInit],
   c8_override_expiry_and_state_change_clearing.1 sC8 1801 ⟨Speed.turbo, 0⟩ rfl
     (by norm_num [sC8, orchInit]),
   c8_override_expiry_and_state_change_clearing.2.2.1 sC8 1801 ⟨HvacMode.heat, 70, 0⟩ rfl
     (by norm_num [sC8, orchInit]),
   c8_override_expiry_and_state_change_clearing.2.1 sC8 900 ⟨Speed.turbo, 0⟩ rfl
     (by norm_num [sC8, orchInit]),
   c8_override_expiry_and_state_change_clearing.2.2.2.2.1 {} sC8 1801 (some 900) none
     ⟨Speed.turbo, 0⟩ rfl (by norm_num [sC8, orchInit]),
   (c8_override_expiry_and_state_change_clearing.2.2.2.2.2 sC8 100
     OccState.present OccState.away).1⟩

/-! ## C1 -/

/-- A state with the door open (safety interlock active) and everything else
as at start-up. -/
def sC1 : OrchState := { orchInit with doorOpen := true }

/-- C1 (code bug): with the door open, `POST /erv {"speed": "turbo"}` issues a
`turn_on(TURBO)` command — not OFF — because `_handle_erv_post` applies the
requested speed immediately with no window/door interlock check; the ERV is
then recorded as running.  (The evaluation path, by contrast, resolves to OFF
under the interlock; the non-OFF command stands until some later evaluation
runs.) -/
theorem c1_erv_post_bypasses_interlock :
    sC1.doorOpen = true ∧
      (handleErvPost sC1 0 Speed.turbo).actions = [ErvAction.turnOn Speed.turbo] ∧
      (handleErvPost sC1 0 Speed.turbo).state.ervRunning = true :=
  ⟨rfl, rfl, rfl⟩

/-! ## C2 -/

/-- C2 (code bug): on every committed transition into AWAY the state-change
handler raises `AttributeError` at line 875 (`self._tvoc_history.clear()`
names an attribute that does not exist — the window is `_tvoc_away_history`),
so while the CO2 window is cleared, the tVOC rate window is left untouched
and the AWAY entry time `_away_start_time` is never recorded; with it still
unset, the adaptive computation skips the forced-TURBO window entirely. -/
theorem c2_on_state_change_away_raises (s : OrchState) (now : ℚ)
    (oldState : OccState) :
    (onStateChange s now oldState OccState.away).2 = true ∧
      ((onStateChange s now oldState OccState.away).1).co2History = [] ∧
      ((onStateChange s now oldState OccState.away).1).tvocAwayHistory =
        s.tvocAwayHistory ∧
      ((onStateChange s now oldState OccState.away).1).awayStartTime =
        s.awayStartTime ∧
      adaptiveAwayCo2 {}
          ((onStateChange orchInit now oldState OccState.away).1).co2History
          ((onStateChange orchInit now oldState OccState.away).1).awayStartTime
          now =
        (none, false, none) := by
  unfold onStateChange clearManualOverrides
  dsimp only
  refine ⟨by simp, by simp, by simp, by simp, ?_⟩
  simp only [if_pos rfl]
  rfl

/-! ## C7 -/

/-- An AWAY state whose HVAC is running in COOL mode and not suspended. -/
def sC7 : OrchState :=
  { orchInit with smState := OccState.away, hvacMode := HvacMode.cool }

/-- C7 (code bug): while AWAY with the measured temperature 50°F below the
critical 55°F floor, the coordinator does NOT force HEAT when the HVAC is in
COOL mode and not suspended: the critical branch's inner guard
(`self._hvac_suspended or self._hvac_mode == "off"`, line 705) is false, so
no command is issued and the mode stays COOL — contrary to the "always heat"
rule the method's own docstring states. -/
theorem c7_critical_temp_does_not_force_heat_from_cool :
    sC7.smState = OccState.away ∧ sC7.hvacMode = HvacMode.cool ∧
      sC7.hvacSuspended = false ∧
      (50 : ℚ) < ({} : Thresholds).hvacCriticalTempF ∧
      evaluateHvacState {} sC7 (some 50) (some ⟨1, HvacMode.cool⟩) true true =
        ⟨sC7, [], []⟩ := by
  refine ⟨rfl, rfl, rfl, by norm_num, ?_⟩
  unfold evaluateHvacState
  norm_num [sC7, orchInit]
  decide

/-! ## C3 -/

/-- An AWAY state with the ERV running and a fresh manual HVAC override
(HEAT at 70°F) exactly as `POST /hvac` leaves it (suspension flag and
remembered last mode cleared). -/
def sC3 : OrchState :=
  { orchInit with smState := OccState.away, ervRunning := true,
                  ervSpeed := Speed.turbo, hvacMode := HvacMode.heat,
                  manualHvac := some ⟨HvacMode.heat, 70, 0⟩,
                  hvacSuspended := false, hvacLastMode := none }

/-- C3 counterexample: with a manual HVAC override active (and unexpired —
the coordinator never even reads the clock or the override), the automatic
coordinator still performs a suspend: AWAY, ERV running, temperature 70°F
above the 68°F floor, device reported ON in HEAT — the evaluation issues a
`turn_off`, sets the suspension flag and overwrites the remembered last
mode, all while the override is active. -/
theorem c3_counterexample_suspend_under_override :
    sC3.manualHvac = some ⟨HvacMode.heat, 70, 0⟩ ∧
      (evaluateHvacState {} sC3 (some 70) (some ⟨1, HvacMode.heat⟩) true
        true).actions = [HvacAction.turnOff] ∧
      (evaluateHvacState {} sC3 (some 70) (some ⟨1, HvacMode.heat⟩) true
        true).state.hvacSuspended = true ∧
      (evaluateHvacState {} sC3 (some 70) (some ⟨1, HvacMode.heat⟩) true
        true).state.hvacMode = HvacMode.off ∧
      (evaluateHvacState {} sC3 (some 70) (some ⟨1, HvacMode.heat⟩) true
        true).state.hvacLastMode = some HvacMode.heat := by
  have h : evaluateHvacState {} sC3 (some 70) (some ⟨1, HvacMode.heat⟩) true true =
      { state := { sC3 with hvacLastMode := some HvacMode.heat,
                            hvacMode := HvacMode.off, hvacSuspended := true },
        actions := [HvacAction.turnOff],
        audits := [⟨AuditSystem.hvac, AuditReason.ervRunningTemp⟩] } := by
    unfold evaluateHvacState
    norm_num [sC3, orchInit]
    decide
  exact ⟨rfl, by rw [h], by rw [h], by rw [h], by rw [h]⟩

/-- C3 amended: `_evaluate_hvac_state` does not consult the manual HVAC
override at all — its commands, audits and every other state field are
identical whatever the override fields hold (so suspend and critical-heat
actions still occur while an override is active); what `POST /hvac` does do
is clear the suspension flag and the remembered last mode, which is what
disables the automatic *restore* paths until something re-suspends. -/
theorem c3_amended_hvac_eval_ignores_override :
    (∀ cfg s tempF dev occ kumo mo,
      evaluateHvacState cfg { s with manualHvac := mo } tempF dev occ kumo =
        { state := { (evaluateHvacState cfg s tempF dev occ kumo).state with
                       manualHvac := mo },
          actions := (evaluateHvacState cfg s tempF dev occ kumo).actions,
          audits := (evaluateHvacState cfg s tempF dev occ kumo).audits }) ∧
    (∀ s now sp,
      (handleHvacPost s now HvacMode.heat sp).state.hvacSuspended = false ∧
      (handleHvacPost s now HvacMode.heat sp).state.hvacLastMode = none ∧
      (handleHvacPost s now HvacMode.off sp).state.hvacSuspended = false ∧
      (handleHvacPost s now HvacMode.off sp).state.hvacLastMode = none) := by
  constructor
  · intro cfg s tempF dev occ kumo mo
    cases s
    unfold evaluateHvacState
    dsimp only
    repeat' split
    all_goals rfl
  · intro s now sp
    refine ⟨?_, ?_, ?_, ?_⟩ <;>
      (unfold handleHvacPost; dsimp only; split <;> simp_all)

/-! ## C4 -/

/-!
Each evaluation step only writes a known small set of orchestrator fields;
the following projection lemmas record, for every step, each field it passes
through unchanged.
-/

@[simp] theorem checkManualOverrideExpiry_smState (s : OrchState) (now : ℚ) :
    (checkManualOverrideExpiry s now).smState = s.smState := by
  rw [checkManualOverrideExpiry_eq]

@[simp] theorem checkManualOverrideExpiry_windowOpen (s : OrchState) (now : ℚ) :
    (checkManualOverrideExpiry s now).windowOpen = s.windowOpen := by
  rw [checkManualOverrideExpiry_eq]

@[simp] theorem checkManualOverrideExpiry_doorOpen (s : OrchState) (now : ℚ) :
    (checkManualOverrideExpiry s now).doorOpen = s.doorOpen := by
  rw [checkManualOverrideExpiry_eq]

@[simp] theorem checkManualOverrideExpiry_ervRunning (s : OrchState) (now : ℚ) :
    (checkManualOverrideExpiry s now).ervRunning = s.ervRunning := by
  rw [checkManualOverrideExpiry_eq]

@[simp] theorem checkManualOverrideExpiry_ervSpeed (s : OrchState) (now : ℚ) :
    (checkManualOverrideExpiry s now).ervSpeed = s.ervSpeed := by
  rw [checkManualOverrideExpiry_eq]

@[simp] theorem checkManualOverrideExpiry_co2History (s : OrchState) (now : ℚ) :
    (checkManualOverrideExpiry s now).co2History = s.co2History := by
  rw [checkManualOverrideExpiry_eq]

@[simp] theorem checkManualOverrideExpiry_outdoorCo2Baseline (s : OrchState) (now : ℚ) :
    (checkManualOverrideExpiry s now).outdoorCo2Baseline = s.outdoorCo2Baseline := by
  rw [checkManualOverrideExpiry_eq]

@[simp] theorem checkManualOverrideExpiry_plateauDetected (s : OrchState) (now : ℚ) :
    (checkManualOverrideExpiry s now).plateauDetected = s.plateauDetected := by
  rw [checkManualOverrideExpiry_eq]

@[simp] theorem checkManualOverrideExpiry_awayStartTime (s : OrchState) (now : ℚ) :
    (checkManualOverrideExpiry s now).awayStartTime = s.awayStartTime := by
  rw [checkManualOverrideExpiry_eq]

@[simp] theorem checkManualOverrideExpiry_tvocAwayHistory (s : OrchState) (now : ℚ) :
    (checkManualOverrideExpiry s now).tvocAwayHistory = s.tvocAwayHistory := by
  rw [checkManualOverrideExpiry_eq]

@[simp] theorem checkManualOverrideExpiry_tvocAwayVentilationActive (s : OrchState) (now : ℚ) :
    (checkManualOverrideExpiry s now).tvocAwayVentilationActive = s.tvocAwayVentilationActive := by
  rw [checkManualOverrideExpiry_eq]

@[simp] theorem checkManualOverrideExpiry_tvocBaseline (s : OrchState) (now : ℚ) :
    (checkManualOverrideExpiry s now).tvocBaseline = s.tvocBaseline := by
  rw [checkManualOverrideExpiry_eq]

@[simp] theorem checkManualOverrideExpiry_tvocPlateauDetected (s : OrchState) (now : ℚ) :
    (checkManualOverrideExpiry s now).tvocPlateauDetected = s.tvocPlateauDetected := by
  rw [checkManualOverrideExpiry_eq]

@[simp] theorem checkManualOverrideExpiry_manualOverrideTimeout (s : OrchState) (now : ℚ) :
    (checkManualOverrideExpiry s now).manualOverrideTimeout = s.manualOverrideTimeout := by
  rw [checkManualOverrideExpiry_eq]

@[simp] theorem checkManualOverrideExpiry_hvacMode (s : OrchState) (now : ℚ) :
    (checkManualOverrideExpiry s now).hvacMode = s.hvacMode := by
  rw [checkManualOverrideExpiry_eq]

@[simp] theorem checkManualOverrideExpiry_hvacSetpointC (s : OrchState) (now : ℚ) :
    (checkManualOverrideExpiry s now).hvacSetpointC = s.hvacSetpointC := by
  rw [checkManualOverrideExpiry_eq]

@[simp] theorem checkManualOverrideExpiry_hvacSuspended (s : OrchState) (now : ℚ) :
    (checkManualOverrideExpiry s now).hvacSuspended = s.hvacSuspended := by
  rw [checkManualOverrideExpiry_eq]

@[simp] theorem checkManualOverrideExpiry_hvacLastMode (s : OrchState) (now : ℚ) :
    (checkManualOverrideExpiry s now).hvacLastMode = s.hvacLastMode := by
  rw [checkManualOverrideExpiry_eq]

@[simp] theorem checkManualOverrideExpiry_roomClosedSince (s : OrchState) (now : ℚ) :
    (checkManualOverrideExpiry s now).roomClosedSince = s.roomClosedSince := by
  rw [checkManualOverrideExpiry_eq]

@[simp] theorem checkManualOverrideExpiry_flushActiveUntil (s : OrchState) (now : ℚ) :
    (checkManualOverrideExpiry s now).flushActiveUntil = s.flushActiveUntil := by
  rw [checkManualOverrideExpiry_eq]

@[simp] theorem checkManualOverrideExpiry_flushNextDueAt (s : OrchState) (now : ℚ) :
    (checkManualOverrideExpiry s now).flushNextDueAt = s.flushNextDueAt := by
  rw [checkManualOverrideExpiry_eq]

@[simp] theorem awayCo2Step_smState (cfg : Thresholds) (s : OrchState) (now : ℚ) (co2 : Option ℤ) :
    ((awayCo2Step cfg s now co2).2).smState = s.smState := by
  unfold awayCo2Step
  dsimp only
  repeat' split
  all_goals rfl

@[simp] theorem awayCo2Step_windowOpen (cfg : Thresholds) (s : OrchState) (now : ℚ) (co2 : Option ℤ) :
    ((awayCo2Step cfg s now co2).2).windowOpen = s.windowOpen := by
  unfold awayCo2Step
  dsimp only
  repeat' split
  all_goals rfl

@[simp] theorem awayCo2Step_doorOpen (cfg : Thresholds) (s : OrchState) (now : ℚ) (co2 : Option ℤ) :
    ((awayCo2Step cfg s now co2).2).doorOpen = s.doorOpen := by
  unfold awayCo2Step
  dsimp only
  repeat' split
  all_goals rfl

@[simp] theorem awayCo2Step_ervRunning (cfg : Thresholds) (s : OrchState) (now : ℚ) (co2 : Option ℤ) :
    ((awayCo2Step cfg s now co2).2).ervRunning = s.ervRunning := by
  unfold awayCo2Step
  dsimp only
  repeat' split
  all_goals rfl

@[simp] theorem awayCo2Step_ervSpeed (cfg : Thresholds) (s : OrchState) (now : ℚ) (co2 : Option ℤ) :
    ((awayCo2Step cfg s now co2).2).ervSpeed = s.ervSpeed := by
  unfold awayCo2Step
  dsimp only
  repeat' split
  all_goals rfl

@[simp] theorem awayCo2Step_co2History (cfg : Thresholds) (s : OrchState) (now : ℚ) (co2 : Option ℤ) :
    ((awayCo2Step cfg s now co2).2).co2History = s.co2History := by
  unfold awayCo2Step
  dsimp only
  repeat' split
  all_goals rfl

@[simp] theorem awayCo2Step_awayStartTime (cfg : Thresholds) (s : OrchState) (now : ℚ) (co2 : Option ℤ) :
    ((awayCo2Step cfg s now co2).2).awayStartTime = s.awayStartTime := by
  unfold awayCo2Step
  dsimp only
  repeat' split
  all_goals rfl

@[simp] theorem awayCo2Step_tvocAwayHistory (cfg : Thresholds) (s : OrchState) (now : ℚ) (co2 : Option ℤ) :
    ((awayCo2Step cfg s now co2).2).tvocAwayHistory = s.tvocAwayHistory := by
  unfold awayCo2Step
  dsimp only
  repeat' split
  all_goals rfl

@[simp] theorem awayCo2Step_tvocAwayVentilationActive (cfg : Thresholds) (s : OrchState) (now : ℚ) (co2 : Option ℤ) :
    ((awayCo2Step cfg s now co2).2).tvocAwayVentilationActive = s.tvocAwayVentilationActive := by
  unfold awayCo2Step
  dsimp only
  repeat' split
  all_goals rfl

@[simp] theorem awayCo2Step_tvocBaseline (cfg : Thresholds) (s : OrchState) (now : ℚ) (co2 : Option ℤ) :
    ((awayCo2Step cfg s now co2).2).tvocBaseline = s.tvocBaseline := by
  unfold awayCo2Step
  dsimp only
  repeat' split
  all_goals rfl

@[simp] theorem awayCo2Step_tvocPlateauDetected (cfg : Thresholds) (s : OrchState) (now : ℚ) (co2 : Option ℤ) :
    ((awayCo2Step cfg s now co2).2).tvocPlateauDetected = s.tvocPlateauDetected := by
  unfold awayCo2Step
  dsimp only
  repeat' split
  all_goals rfl

@[simp] theorem awayCo2Step_manualErv (cfg : Thresholds) (s : OrchState) (now : ℚ) (co2 : Option ℤ) :
    ((awayCo2Step cfg s now co2).2).manualErv = s.manualErv := by
  unfold awayCo2Step
  dsimp only
  repeat' split
  all_goals rfl

@[simp] theorem awayCo2Step_manualHvac (cfg : Thresholds) (s : OrchState) (now : ℚ) (co2 : Option ℤ) :
    ((awayCo2Step cfg s now co2).2).manualHvac = s.manualHvac := by
  unfold awayCo2Step
  dsimp only
  repeat' split
  all_goals rfl

@[simp] theorem awayCo2Step_manualOverrideTimeout (cfg : Thresholds) (s : OrchState) (now : ℚ) (co2 : Option ℤ) :
    ((awayCo2Step cfg s now co2).2).manualOverrideTimeout = s.manualOverrideTimeout := by
  unfold awayCo2Step
  dsimp only
  repeat' split
  all_goals rfl

@[simp] theorem awayCo2Step_hvacMode (cfg : Thresholds) (s : OrchState) (now : ℚ) (co2 : Option ℤ) :
    ((awayCo2Step cfg s now co2).2).hvacMode = s.hvacMode := by
  unfold awayCo2Step
  dsimp only
  repeat' split
  all_goals rfl

@[simp] theorem awayCo2Step_hvacSetpointC (cfg : Thresholds) (s : OrchState) (now : ℚ) (co2 : Option ℤ) :
    ((awayCo2Step cfg s now co2).2).hvacSetpointC = s.hvacSetpointC := by
  unfold awayCo2Step
  dsimp only
  repeat' split
  all_goals rfl

@[simp] theorem awayCo2Step_hvacSuspended (cfg : Thresholds) (s : OrchState) (now : ℚ) (co2 : Option ℤ) :
    ((awayCo2Step cfg s now co2).2).hvacSuspended = s.hvacSuspended := by
  unfold awayCo2Step
  dsimp only
  repeat' split
  all_goals rfl

@[simp] theorem awayCo2Step_hvacLastMode (cfg : Thresholds) (s : OrchState) (now : ℚ) (co2 : Option ℤ) :
    ((awayCo2Step cfg s now co2).2).hvacLastMode = s.hvacLastMode := by
  unfold awayCo2Step
  dsimp only
  repeat' split
  all_goals rfl

@[simp] theorem awayCo2Step_roomClosedSince (cfg : Thresholds) (s : OrchState) (now : ℚ) (co2 : Option ℤ) :
    ((awayCo2Step cfg s now co2).2).roomClosedSince = s.roomClosedSince := by
  unfold awayCo2Step
  dsimp only
  repeat' split
  all_goals rfl

@[simp] theorem awayCo2Step_flushActiveUntil (cfg : Thresholds) (s : OrchState) (now : ℚ) (co2 : Option ℤ) :
    ((awayCo2Step cfg s now co2).2).flushActiveUntil = s.flushActiveUntil := by
  unfold awayCo2Step
  dsimp only
  repeat' split
  all_goals rfl

@[simp] theorem awayCo2Step_flushNextDueAt (cfg : Thresholds) (s : OrchState) (now : ℚ) (co2 : Option ℤ) :
    ((awayCo2Step cfg s now co2).2).flushNextDueAt = s.flushNextDueAt := by
  unfold awayCo2Step
  dsimp only
  repeat' split
  all_goals rfl

@[simp] theorem awayTvocStep_smState (cfg : Thresholds) (s : OrchState) (tvoc : Option ℤ) :
    ((awayTvocStep cfg s tvoc).2).smState = s.smState := by
  unfold awayTvocStep
  dsimp only
  repeat' split
  all_goals rfl

@[simp] theorem awayTvocStep_windowOpen (cfg : Thresholds) (s : OrchState) (tvoc : Option ℤ) :
    ((awayTvocStep cfg s tvoc).2).windowOpen = s.windowOpen := by
  unfold awayTvocStep
  dsimp only
  repeat' split
  all_goals rfl

@[simp] theorem awayTvocStep_doorOpen (cfg : Thresholds) (s : OrchState) (tvoc : Option ℤ) :
    ((awayTvocStep cfg s tvoc).2).doorOpen = s.doorOpen := by
  unfold awayTvocStep
  dsimp only
  repeat' split
  all_goals rfl

@[simp] theorem awayTvocStep_ervRunning (cfg : Thresholds) (s : OrchState) (tvoc : Option ℤ) :
    ((awayTvocStep cfg s tvoc).2).ervRunning = s.ervRunning := by
  unfold awayTvocStep
  dsimp only
  repeat' split
  all_goals rfl

@[simp] theorem awayTvocStep_ervSpeed (cfg : Thresholds) (s : OrchState) (tvoc : Option ℤ) :
    ((awayTvocStep cfg s tvoc).2).ervSpeed = s.ervSpeed := by
  unfold awayTvocStep
  dsimp only
  repeat' split
  all_goals rfl

@[simp] theorem awayTvocStep_co2History (cfg : Thresholds) (s : OrchState) (tvoc : Option ℤ) :
    ((awayTvocStep cfg s tvoc).2).co2History = s.co2History := by
  unfold awayTvocStep
  dsimp only
  repeat' split
  all_goals rfl

@[simp] theorem awayTvocStep_outdoorCo2Baseline (cfg : Thresholds) (s : OrchState) (tvoc : Option ℤ) :
    ((awayTvocStep cfg s tvoc).2).outdoorCo2Baseline = s.outdoorCo2Baseline := by
  unfold awayTvocStep
  dsimp only
  repeat' split
  all_goals rfl

@[simp] theorem awayTvocStep_plateauDetected (cfg : Thresholds) (s : OrchState) (tvoc : Option ℤ) :
    ((awayTvocStep cfg s tvoc).2).plateauDetected = s.plateauDetected := by
  unfold awayTvocStep
  dsimp only
  repeat' split
  all_goals rfl

@[simp] theorem awayTvocStep_awayStartTime (cfg : Thresholds) (s : OrchState) (tvoc : Option ℤ) :
    ((awayTvocStep cfg s tvoc).2).awayStartTime = s.awayStartTime := by
  unfold awayTvocStep
  dsimp only
  repeat' split
  all_goals rfl

@[simp] theorem awayTvocStep_tvocAwayHistory (cfg : Thresholds) (s : OrchState) (tvoc : Option ℤ) :
    ((awayTvocStep cfg s tvoc).2).tvocAwayHistory = s.tvocAwayHistory := by
  unfold awayTvocStep
  dsimp only
  repeat' split
  all_goals rfl

@[simp] theorem awayTvocStep_manualErv (cfg : Thresholds) (s : OrchState) (tvoc : Option ℤ) :
    ((awayTvocStep cfg s tvoc).2).manualErv = s.manualErv := by
  unfold awayTvocStep
  dsimp only
  repeat' split
  all_goals rfl

@[simp] theorem awayTvocStep_manualHvac (cfg : Thresholds) (s : OrchState) (tvoc : Option ℤ) :
    ((awayTvocStep cfg s tvoc).2).manualHvac = s.manualHvac := by
  unfold awayTvocStep
  dsimp only
  repeat' split
  all_goals rfl

@[simp] theorem awayTvocStep_manualOverrideTimeout (cfg : Thresholds) (s : OrchState) (tvoc : Option ℤ) :
    ((awayTvocStep cfg s tvoc).2).manualOverrideTimeout = s.manualOverrideTimeout := by
  unfold awayTvocStep
  dsimp only
  repeat' split
  all_goals rfl

@[simp] theorem awayTvocStep_hvacMode (cfg : Thresholds) (s : OrchState) (tvoc : Option ℤ) :
    ((awayTvocStep cfg s tvoc).2).hvacMode = s.hvacMode := by
  unfold awayTvocStep
  dsimp only
  repeat' split
  all_goals rfl

@[simp] theorem awayTvocStep_hvacSetpointC (cfg : Thresholds) (s : OrchState) (tvoc : Option ℤ) :
    ((awayTvocStep cfg s tvoc).2).hvacSetpointC = s.hvacSetpointC := by
  unfold awayTvocStep
  dsimp only
  repeat' split
  all_goals rfl

@[simp] theorem awayTvocStep_hvacSuspended (cfg : Thresholds) (s : OrchState) (tvoc : Option ℤ) :
    ((awayTvocStep cfg s tvoc).2).hvacSuspended = s.hvacSuspended := by
  unfold awayTvocStep
  dsimp only
  repeat' split
  all_goals rfl

@[simp] theorem awayTvocStep_hvacLastMode (cfg : Thresholds) (s : OrchState) (tvoc : Option ℤ) :
    ((awayTvocStep cfg s tvoc).2).hvacLastMode = s.hvacLastMode := by
  unfold awayTvocStep
  dsimp only
  repeat' split
  all_goals rfl

@[simp] theorem awayTvocStep_roomClosedSince (cfg : Thresholds) (s : OrchState) (tvoc : Option ℤ) :
    ((awayTvocStep cfg s tvoc).2).roomClosedSince = s.roomClosedSince := by
  unfold awayTvocStep
  dsimp only
  repeat' split
  all_goals rfl

@[simp] theorem awayTvocStep_flushActiveUntil (cfg : Thresholds) (s : OrchState) (tvoc : Option ℤ) :
    ((awayTvocStep cfg s tvoc).2).flushActiveUntil = s.flushActiveUntil := by
  unfold awayTvocStep
  dsimp only
  repeat' split
  all_goals rfl

@[simp] theorem awayTvocStep_flushNextDueAt (cfg : Thresholds) (s : OrchState) (tvoc : Option ℤ) :
    ((awayTvocStep cfg s tvoc).2).flushNextDueAt = s.flushNextDueAt := by
  unfold awayTvocStep
  dsimp only
  repeat' split
  all_goals rfl

@[simp] theorem awayCombine_smState (a b : Option Speed) (r : Bool) (s : OrchState) :
    ((awayCombine a b r s).state).smState = s.smState := by
  unfold awayCombine
  dsimp only
  repeat' split
  all_goals rfl

@[simp] theorem awayCombine_windowOpen (a b : Option Speed) (r : Bool) (s : OrchState) :
    ((awayCombine a b r s).state).windowOpen = s.windowOpen := by
  unfold awayCombine
  dsimp only
  repeat' split
  all_goals rfl

@[simp] theorem awayCombine_doorOpen (a b : Option Speed) (r : Bool) (s : OrchState) :
    ((awayCombine a b r s).state).doorOpen = s.doorOpen := by
  unfold awayCombine
  dsimp only
  repeat' split
  all_goals rfl

@[simp] theorem awayCombine_co2History (a b : Option Speed) (r : Bool) (s : OrchState) :
    ((awayCombine a b r s).state).co2History = s.co2History := by
  unfold awayCombine
  dsimp only
  repeat' split
  all_goals rfl

@[simp] theorem awayCombine_outdoorCo2Baseline (a b : Option Speed) (r : Bool) (s : OrchState) :
    ((awayCombine a b r s).state).outdoorCo2Baseline = s.outdoorCo2Baseline := by
  unfold awayCombine
  dsimp only
  repeat' split
  all_goals rfl

@[simp] theorem awayCombine_plateauDetected (a b : Option Speed) (r : Bool) (s : OrchState) :
    ((awayCombine a b r s).state).plateauDetected = s.plateauDetected := by
  unfold awayCombine
  dsimp only
  repeat' split
  all_goals rfl

@[simp] theorem awayCombine_awayStartTime (a b : Option Speed) (r : Bool) (s : OrchState) :
    ((awayCombine a b r s).state).awayStartTime = s.awayStartTime := by
  unfold awayCombine
  dsimp only
  repeat' split
  all_goals rfl

@[simp] theorem awayCombine_tvocAwayHistory (a b : Option Speed) (r : Bool) (s : OrchState) :
    ((awayCombine a b r s).state).tvocAwayHistory = s.tvocAwayHistory := by
  unfold awayCombine
  dsimp only
  repeat' split
  all_goals rfl

@[simp] theorem awayCombine_tvocAwayVentilationActive (a b : Option Speed) (r : Bool) (s : OrchState) :
    ((awayCombine a b r s).state).tvocAwayVentilationActive = s.tvocAwayVentilationActive := by
  unfold awayCombine
  dsimp only
  repeat' split
  all_goals rfl

@[simp] theorem awayCombine_tvocBaseline (a b : Option Speed) (r : Bool) (s : OrchState) :
    ((awayCombine a b r s).state).tvocBaseline = s.tvocBaseline := by
  unfold awayCombine
  dsimp only
  repeat' split
  all_goals rfl

@[simp] theorem awayCombine_tvocPlateauDetected (a b : Option Speed) (r : Bool) (s : OrchState) :
    ((awayCombine a b r s).state).tvocPlateauDetected = s.tvocPlateauDetected := by
  unfold awayCombine
  dsimp only
  repeat' split
  all_goals rfl

@[simp] theorem awayCombine_manualErv (a b : Option Speed) (r : Bool) (s : OrchState) :
    ((awayCombine a b r s).state).manualErv = s.manualErv := by
  unfold awayCombine
  dsimp only
  repeat' split
  all_goals rfl

@[simp] theorem awayCombine_manualHvac (a b : Option Speed) (r : Bool) (s : OrchState) :
    ((awayCombine a b r s).state).manualHvac = s.manualHvac := by
  unfold awayCombine
  dsimp only
  repeat' split
  all_goals rfl

@[simp] theorem awayCombine_manualOverrideTimeout (a b : Option Speed) (r : Bool) (s : OrchState) :
    ((awayCombine a b r s).state).manualOverrideTimeout = s.manualOverrideTimeout := by
  unfold awayCombine
  dsimp only
  repeat' split
  all_goals rfl

@[simp] theorem awayCombine_hvacMode (a b : Option Speed) (r : Bool) (s : OrchState) :
    ((awayCombine a b r s).state).hvacMode = s.hvacMode := by
  unfold awayCombine
  dsimp only
  repeat' split
  all_goals rfl

@[simp] theorem awayCombine_hvacSetpointC (a b : Option Speed) (r : Bool) (s : OrchState) :
    ((awayCombine a b r s).state).hvacSetpointC = s.hvacSetpointC := by
  unfold awayCombine
  dsimp only
  repeat' split
  all_goals rfl

@[simp] theorem awayCombine_hvacSuspended (a b : Option Speed) (r : Bool) (s : OrchState) :
    ((awayCombine a b r s).state).hvacSuspended = s.hvacSuspended := by
  unfold awayCombine
  dsimp only
  repeat' split
  all_goals rfl

@[simp] theorem awayCombine_hvacLastMode (a b : Option Speed) (r : Bool) (s : OrchState) :
    ((awayCombine a b r s).state).hvacLastMode = s.hvacLastMode := by
  unfold awayCombine
  dsimp only
  repeat' split
  all_goals rfl

@[simp] theorem awayCombine_roomClosedSince (a b : Option Speed) (r : Bool) (s : OrchState) :
    ((awayCombine a b r s).state).roomClosedSince = s.roomClosedSince := by
  unfold awayCombine
  dsimp only
  repeat' split
  all_goals rfl

@[simp] theorem awayCombine_flushActiveUntil (a b : Option Speed) (r : Bool) (s : OrchState) :
    ((awayCombine a b r s).state).flushActiveUntil = s.flushActiveUntil := by
  unfold awayCombine
  dsimp only
  repeat' split
  all_goals rfl

@[simp] theorem awayCombine_flushNextDueAt (a b : Option Speed) (r : Bool) (s : OrchState) :
    ((awayCombine a b r s).state).flushNextDueAt = s.flushNextDueAt := by
  unfold awayCombine
  dsimp only
  repeat' split
  all_goals rfl

@[simp] theorem presentBranch_smState (cfg : Thresholds) (s : OrchState) (co2 : Option ℤ) :
    ((presentBranch cfg s co2).state).smState = s.smState := by
  unfold presentBranch
  dsimp only
  repeat' split
  all_goals rfl

@[simp] theorem presentBranch_windowOpen (cfg : Thresholds) (s : OrchState) (co2 : Option ℤ) :
    ((presentBranch cfg s co2).state).windowOpen = s.windowOpen := by
  unfold presentBranch
  dsimp only
  repeat' split
  all_goals rfl

@[simp] theorem presentBranch_doorOpen (cfg : Thresholds) (s : OrchState) (co2 : Option ℤ) :
    ((presentBranch cfg s co2).state).doorOpen = s.doorOpen := by
  unfold presentBranch
  dsimp only
  repeat' split
  all_goals rfl

@[simp] theorem presentBranch_co2History (cfg : Thresholds) (s : OrchState) (co2 : Option ℤ) :
    ((presentBranch cfg s co2).state).co2History = s.co2History := by
  unfold presentBranch
  dsimp only
  repeat' split
  all_goals rfl

@[simp] theorem presentBranch_outdoorCo2Baseline (cfg : Thresholds) (s : OrchState) (co2 : Option ℤ) :
    ((presentBranch cfg s co2).state).outdoorCo2Baseline = s.outdoorCo2Baseline := by
  unfold presentBranch
  dsimp only
  repeat' split
  all_goals rfl

@[simp] theorem presentBranch_plateauDetected (cfg : Thresholds) (s : OrchState) (co2 : Option ℤ) :
    ((presentBranch cfg s co2).state).plateauDetected = s.plateauDetected := by
  unfold presentBranch
  dsimp only
  repeat' split
  all_goals rfl

@[simp] theorem presentBranch_awayStartTime (cfg : Thresholds) (s : OrchState) (co2 : Option ℤ) :
    ((presentBranch cfg s co2).state).awayStartTime = s.awayStartTime := by
  unfold presentBranch
  dsimp only
  repeat' split
  all_goals rfl

@[simp] theorem presentBranch_tvocAwayHistory (cfg : Thresholds) (s : OrchState) (co2 : Option ℤ) :
    ((presentBranch cfg s co2).state).tvocAwayHistory = s.tvocAwayHistory := by
  unfold presentBranch
  dsimp only
  repeat' split
  all_goals rfl

@[simp] theorem presentBranch_tvocAwayVentilationActive (cfg : Thresholds) (s : OrchState) (co2 : Option ℤ) :
    ((presentBranch cfg s co2).state).tvocAwayVentilationActive = s.tvocAwayVentilationActive := by
  unfold presentBranch
  dsimp only
  repeat' split
  all_goals rfl

@[simp] theorem presentBranch_tvocBaseline (cfg : Thresholds) (s : OrchState) (co2 : Option ℤ) :
    ((presentBranch cfg s co2).state).tvocBaseline = s.tvocBaseline := by
  unfold presentBranch
  dsimp only
  repeat' split
  all_goals rfl

@[simp] theorem presentBranch_tvocPlateauDetected (cfg : Thresholds) (s : OrchState) (co2 : Option ℤ) :
    ((presentBranch cfg s co2).state).tvocPlateauDetected = s.tvocPlateauDetected := by
  unfold presentBranch
  dsimp only
  repeat' split
  all_goals rfl

@[simp] theorem presentBranch_manualErv (cfg : Thresholds) (s : OrchState) (co2 : Option ℤ) :
    ((presentBranch cfg s co2).state).manualErv = s.manualErv := by
  unfold presentBranch
  dsimp only
  repeat' split
  all_goals rfl

@[simp] theorem presentBranch_manualHvac (cfg : Thresholds) (s : OrchState) (co2 : Option ℤ) :
    ((presentBranch cfg s co2).state).manualHvac = s.manualHvac := by
  unfold presentBranch
  dsimp only
  repeat' split
  all_goals rfl

@[simp] theorem presentBranch_manualOverrideTimeout (cfg : Thresholds) (s : OrchState) (co2 : Option ℤ) :
    ((presentBranch cfg s co2).state).manualOverrideTimeout = s.manualOverrideTimeout := by
  unfold presentBranch
  dsimp only
  repeat' split
  all_goals rfl

@[simp] theorem presentBranch_hvacMode (cfg : Thresholds) (s : OrchState) (co2 : Option ℤ) :
    ((presentBranch cfg s co2).state).hvacMode = s.hvacMode := by
  unfold presentBranch
  dsimp only
  repeat' split
  all_goals rfl

@[simp] theorem presentBranch_hvacSetpointC (cfg : Thresholds) (s : OrchState) (co2 : Option ℤ) :
    ((presentBranch cfg s co2).state).hvacSetpointC = s.hvacSetpointC := by
  unfold presentBranch
  dsimp only
  repeat' split
  all_goals rfl

@[simp] theorem presentBranch_hvacSuspended (cfg : Thresholds) (s : OrchState) (co2 : Option ℤ) :
    ((presentBranch cfg s co2).state).hvacSuspended = s.hvacSuspended := by
  unfold presentBranch
  dsimp only
  repeat' split
  all_goals rfl

@[simp] theorem presentBranch_hvacLastMode (cfg : Thresholds) (s : OrchState) (co2 : Option ℤ) :
    ((presentBranch cfg s co2).state).hvacLastMode = s.hvacLastMode := by
  unfold presentBranch
  dsimp only
  repeat' split
  all_goals rfl

@[simp] theorem presentBranch_roomClosedSince (cfg : Thresholds) (s : OrchState) (co2 : Option ℤ) :
    ((presentBranch cfg s co2).state).roomClosedSince = s.roomClosedSince := by
  unfold presentBranch
  dsimp only
  repeat' split
  all_goals rfl

@[simp] theorem presentBranch_flushActiveUntil (cfg : Thresholds) (s : OrchState) (co2 : Option ℤ) :
    ((presentBranch cfg s co2).state).flushActiveUntil = s.flushActiveUntil := by
  unfold presentBranch
  dsimp only
  repeat' split
  all_goals rfl

@[simp] theorem presentBranch_flushNextDueAt (cfg : Thresholds) (s : OrchState) (co2 : Option ℤ) :
    ((presentBranch cfg s co2).state).flushNextDueAt = s.flushNextDueAt := by
  unfold presentBranch
  dsimp only
  repeat' split
  all_goals rfl

@[simp] theorem evalBody_smState (cfg : Thresholds) (s : OrchState) (now : ℚ) (co2 tvoc : Option ℤ) :
    ((evalBody cfg s now co2 tvoc).state).smState = s.smState := by
  unfold evalBody awayBranch
  dsimp only
  repeat' split
  all_goals simp

@[simp] theorem evalBody_windowOpen (cfg : Thresholds) (s : OrchState) (now : ℚ) (co2 tvoc : Option ℤ) :
    ((evalBody cfg s now co2 tvoc).state).windowOpen = s.windowOpen := by
  unfold evalBody awayBranch
  dsimp only
  repeat' split
  all_goals simp

@[simp] theorem evalBody_doorOpen (cfg : Thresholds) (s : OrchState) (now : ℚ) (co2 tvoc : Option ℤ) :
    ((evalBody cfg s now co2 tvoc).state).doorOpen = s.doorOpen := by
  unfold evalBody awayBranch
  dsimp only
  repeat' split
  all_goals simp

@[simp] theorem evalBody_co2History (cfg : Thresholds) (s : OrchState) (now : ℚ) (co2 tvoc : Option ℤ) :
    ((evalBody cfg s now co2 tvoc).state).co2History = s.co2History := by
  unfold evalBody awayBranch
  dsimp only
  repeat' split
  all_goals simp

@[simp] theorem evalBody_awayStartTime (cfg : Thresholds) (s : OrchState) (now : ℚ) (co2 tvoc : Option ℤ) :
    ((evalBody cfg s now co2 tvoc).state).awayStartTime = s.awayStartTime := by
  unfold evalBody awayBranch
  dsimp only
  repeat' split
  all_goals simp

@[simp] theorem evalBody_tvocAwayHistory (cfg : Thresholds) (s : OrchState) (now : ℚ) (co2 tvoc : Option ℤ) :
    ((evalBody cfg s now co2 tvoc).state).tvocAwayHistory = s.tvocAwayHistory := by
  unfold evalBody awayBranch
  dsimp only
  repeat' split
  all_goals simp

@[simp] theorem evalBody_manualErv (cfg : Thresholds) (s : OrchState) (now : ℚ) (co2 tvoc : Option ℤ) :
    ((evalBody cfg s now co2 tvoc).state).manualErv = s.manualErv := by
  unfold evalBody awayBranch
  dsimp only
  repeat' split
  all_goals simp

@[simp] theorem evalBody_manualHvac (cfg : Thresholds) (s : OrchState) (now : ℚ) (co2 tvoc : Option ℤ) :
    ((evalBody cfg s now co2 tvoc).state).manualHvac = s.manualHvac := by
  unfold evalBody awayBranch
  dsimp only
  repeat' split
  all_goals simp

@[simp] theorem evalBody_manualOverrideTimeout (cfg : Thresholds) (s : OrchState) (now : ℚ) (co2 tvoc : Option ℤ) :
    ((evalBody cfg s now co2 tvoc).state).manualOverrideTimeout = s.manualOverrideTimeout := by
  unfold evalBody awayBranch
  dsimp only
  repeat' split
  all_goals simp

@[simp] theorem evalBody_hvacMode (cfg : Thresholds) (s : OrchState) (now : ℚ) (co2 tvoc : Option ℤ) :
    ((evalBody cfg s now co2 tvoc).state).hvacMode = s.hvacMode := by
  unfold evalBody awayBranch
  dsimp only
  repeat' split
  all_goals simp

@[simp] theorem evalBody_hvacSetpointC (cfg : Thresholds) (s : OrchState) (now : ℚ) (co2 tvoc : Option ℤ) :
    ((evalBody cfg s now co2 tvoc).state).hvacSetpointC = s.hvacSetpointC := by
  unfold evalBody awayBranch
  dsimp only
  repeat' split
  all_goals simp

@[simp] theorem evalBody_hvacSuspended (cfg : Thresholds) (s : OrchState) (now : ℚ) (co2 tvoc : Option ℤ) :
    ((evalBody cfg s now co2 tvoc).state).hvacSuspended = s.hvacSuspended := by
  unfold evalBody awayBranch
  dsimp only
  repeat' split
  all_goals simp

@[simp] theorem evalBody_hvacLastMode (cfg : Thresholds) (s : OrchState) (now : ℚ) (co2 tvoc : Option ℤ) :
    ((evalBody cfg s now co2 tvoc).state).hvacLastMode = s.hvacLastMode := by
  unfold evalBody awayBranch
  dsimp only
  repeat' split
  all_goals simp

@[simp] theorem evalBody_roomClosedSince (cfg : Thresholds) (s : OrchState) (now : ℚ) (co2 tvoc : Option ℤ) :
    ((evalBody cfg s now co2 tvoc).state).roomClosedSince = s.roomClosedSince := by
  unfold evalBody awayBranch
  dsimp only
  repeat' split
  all_goals simp

@[simp] theorem evalBody_flushActiveUntil (cfg : Thresholds) (s : OrchState) (now : ℚ) (co2 tvoc : Option ℤ) :
    ((evalBody cfg s now co2 tvoc).state).flushActiveUntil = s.flushActiveUntil := by
  unfold evalBody awayBranch
  dsimp only
  repeat' split
  all_goals simp

@[simp] theorem evalBody_flushNextDueAt (cfg : Thresholds) (s : OrchState) (now : ℚ) (co2 tvoc : Option ℤ) :
    ((evalBody cfg s now co2 tvoc).state).flushNextDueAt = s.flushNextDueAt := by
  unfold evalBody awayBranch
  dsimp only
  repeat' split
  all_goals simp

/-- C4 (modelled from the spec, since the flush implementation is absent from
`src/`): (a) while AWAY with no interlock and no manual ERV override, when the
next flush is due and the room has been continuously closed for at least the
configured interval (default 8 h), evaluation schedules a flush window
(default 30 minutes) and the ERV runs at least at the configured MEDIUM
floor, whatever the CO2/tVOC readings are; (b) the flush never lowers the
speed chosen by the adaptive AWAY logic — the flushed effective speed is
always at least the un-flushed one; (c) a door or window opening clears the
next-due time, the active window and the accumulated closed time. -/
theorem c4_stale_flush :
    (∀ s0 now co2 tvoc d t0,
      s0.smState = OccState.away → s0.windowOpen = false → s0.doorOpen = false →
      s0.manualErv = none → s0.flushActiveUntil = none →
      s0.flushNextDueAt = some d → now ≥ d →
      s0.roomClosedSince = some t0 → now - t0 ≥ 8 * 3600 →
      (evaluateErvStateWithFlush {} {} s0 now co2 tvoc).state.flushActiveUntil =
          some (now + 30 * 60) ∧
        (evaluateErvStateWithFlush {} {} s0 now co2 tvoc).state.ervRunning = true ∧
        speedRank Speed.medium ≤
          speedRank (evaluateErvStateWithFlush {} {} s0 now co2 tvoc).state.ervSpeed) ∧
    (∀ cfg fc s0 now co2 tvoc,
      speedRank (effectiveSpeed (evaluateErvState cfg s0 now co2 tvoc).state) ≤
        speedRank (effectiveSpeed
          (evaluateErvStateWithFlush cfg fc s0 now co2 tvoc).state)) ∧
    (∀ s now, s.doorOpen = true ∨ s.windowOpen = true →
      (updateRoomClosedTracking s now).flushNextDueAt = none ∧
        (updateRoomClosedTracking s now).roomClosedSince = none ∧
        (updateRoomClosedTracking s now).flushActiveUntil = none) := by
  refine ⟨?_, ?_, ?_⟩
  · intro s0 now co2 tvoc d t0 hst hw hd hm hfa hfd hge hrc hint
    have hman : (evaluateErvState {} s0 now co2 tvoc).state.manualErv = none := by
      simp [evaluateErvState, checkManualOverrideExpiry_eq, hm, overrideExpired]
    unfold evaluateErvStateWithFlush
    dsimp only
    rw [if_pos, if_neg, if_pos]
    · unfold applyFlushFloor
      dsimp only
      split
      · refine ⟨by simp [evaluateErvState, hfa], by simp, ?_⟩
        simp [speedRank]
      · rename_i hfloor
        rw [not_lt] at hfloor
        refine ⟨by simp [evaluateErvState, hfa], ?_, ?_⟩
        · revert hfloor
          unfold effectiveSpeed
          dsimp only
          split
          · simp_all
          · intro hfloor
            exfalso
            simp only [speedRank] at hfloor
            omega
        · revert hfloor
          unfold effectiveSpeed
          dsimp only
          split
          · simp_all
          · intro hfloor
            simp only [speedRank] at hfloor
            omega
    · constructor
      · simp [evaluateErvState, hfd, hge]
      · simp only [evaluateErvState, evalBody_roomClosedSince,
          checkManualOverrideExpiry_roomClosedSince, hrc, Option.any_some]
        rw [decide_eq_true_eq]
        show now - t0 ≥ (8 : ℚ) * 3600
        exact hint
    · simp [evaluateErvState, hfa]
    · refine ⟨rfl, ?_, ?_, hman⟩
      · simp [evaluateErvState, hst]
      · simp [evaluateErvState, hw, hd]
  · intro cfg fc s0 now co2 tvoc
    unfold evaluateErvStateWithFlush applyFlushFloor
    dsimp only
    repeat' split
    all_goals simp_all [effectiveSpeed]
    all_goals omega
  · intro s now h
    unfold updateRoomClosedTracking
    split
    · exact ⟨rfl, rfl, rfl⟩
    · simp_all

/-- An AWAY, closed-room state whose stale flush became due at time 100 and
whose room has been closed since time 0. -/
def sC4 : OrchState :=
  { orchInit with flushNextDueAt := some 100, roomClosedSince := some 0 }

/-- Witness for C4 at concrete inputs: at `now = 30000` (flush overdue, room
closed for more than 8 h) with no air-quality reading at all, evaluation
opens a 30-minute flush window and runs the ERV at MEDIUM; and a door opening
clears the whole flush schedule. -/
theorem c4_witness :
    sC4.smState = OccState.away ∧ sC4.flushNextDueAt = some 100 ∧
      sC4.roomClosedSince = some 0 ∧ (30000 : ℚ) ≥ 100 ∧
      (30000 : ℚ) - 0 ≥ 8 * 3600 ∧
      (evaluateErvStateWithFlush {} {} sC4 30000 none none).state.flushActiveUntil =
        some (30000 + 30 * 60) ∧
      (evaluateErvStateWithFlush {} {} sC4 30000 none none).state.ervRunning = true ∧
      speedRank Speed.medium ≤
        speedRank (evaluateErvStateWithFlush {} {} sC4 30000 none none).state.ervSpeed ∧
      (updateRoomClosedTracking { orchInit with doorOpen := true } 5).flushNextDueAt =
        none :=
  ⟨rfl, rfl, rfl, by norm_num, by norm_num,
   (c4_stale_flush.1 sC4 30000 none none 100 0 rfl rfl rfl rfl rfl rfl
     (by norm_num) rfl (by norm_num)).1,
   (c4_stale_flush.1 sC4 30000 none none 100 0 rfl rfl rfl rfl rfl rfl
     (by norm_num) rfl (by norm_num)).2.1,
   (c4_stale_flush.1 sC4 30000 none none 100 0 rfl rfl rfl rfl rfl rfl
     (by norm_num) rfl (by norm_num)).2.2,
   (c4_stale_flush.2.2 { orchInit with doorOpen := true } 5 (Or.inl rfl)).1⟩

/-! ## C5 -/

/-- C5: while PRESENT with no manual ERV override and no safety interlock
(default thresholds): the decision is independent of tVOC; the ERV is running
QUIET after evaluation whenever CO2 ≥ 2000; if it was off it stays off (and
no command is issued) for every CO2 < 2000 or missing reading; once running
QUIET it stays QUIET, with no command issued, for every CO2 in [1800, 2000);
and while running QUIET it ends up off exactly when CO2 < 1800. -/
theorem c5_present_co2_hysteresis (s : OrchState) (now : ℚ) (co2 tvoc : Option ℤ)
    (hst : s.smState = OccState.present) (hw : s.windowOpen = false)
    (hd : s.doorOpen = false) (hm : s.manualErv = none) :
    (∀ tvoc2, evaluateErvState {} s now co2 tvoc =
      evaluateErvState {} s now co2 tvoc2) ∧
    (∀ c, co2 = some c → c ≥ 2000 →
      (evaluateErvState {} s now co2 tvoc).state.ervRunning = true ∧
      (evaluateErvState {} s now co2 tvoc).state.ervSpeed = Speed.quiet) ∧
    (s.ervRunning = false → (∀ c, co2 = some c → c < 2000) →
      (evaluateErvState {} s now co2 tvoc).actions = [] ∧
      (evaluateErvState {} s now co2 tvoc).state.ervRunning = false) ∧
    (s.ervRunning = true → s.ervSpeed = Speed.quiet →
      ∀ c, co2 = some c → 1800 ≤ c → c < 2000 →
      (evaluateErvState {} s now co2 tvoc).actions = [] ∧
      (evaluateErvState {} s now co2 tvoc).state.ervRunning = true ∧
      (evaluateErvState {} s now co2 tvoc).state.ervSpeed = Speed.quiet) ∧
    (s.ervRunning = true → s.ervSpeed = Speed.quiet → ∀ c, co2 = some c →
      ((evaluateErvState {} s now co2 tvoc).state.ervRunning = false ↔ c < 1800)) := by
  have hme : (checkManualOverrideExpiry s now).manualErv = none := by
    rw [checkManualOverrideExpiry_eq]
    simp [hm]
  have heval : ∀ tv, evaluateErvState {} s now co2 tv =
      presentBranch {} (checkManualOverrideExpiry s now) co2 := by
    intro tv
    unfold evaluateErvState evalBody
    rw [if_neg, hme]
    · simp [hst]
    · simp [hw, hd]
  refine ⟨?_, ?_, ?_, ?_, ?_⟩
  · intro tvoc2
    rw [heval tvoc, heval tvoc2]
  · intro c hc hge
    rw [heval tvoc]
    unfold presentBranch
    dsimp only
    rw [if_pos]
    · split <;> simp_all
    · subst hc
      simp only [Option.any_some, decide_eq_true_eq]
      show c ≥ (2000 : ℤ)
      exact hge
  · intro hrun hlt
    rw [heval tvoc]
    unfold presentBranch
    dsimp only
    rw [if_neg]
    · rw [if_neg, if_neg]
      · exact ⟨rfl, by simp [hrun]⟩
      · simp [hrun]
      · simp [hrun]
    · cases co2 with
      | none => simp
      | some c =>
        have := hlt c rfl
        simp only [Option.any_some, decide_eq_true_eq]
        show ¬(c ≥ (2000 : ℤ))
        omega
  · intro hrun hsp c hc h18 h20
    subst hc
    rw [heval tvoc]
    unfold presentBranch
    dsimp only
    rw [if_neg, if_pos, if_neg]
    · exact ⟨rfl, by simp [hrun], by simp [hsp]⟩
    · simp only [Option.any_some, decide_eq_true_eq]
      show ¬(c < (2000 : ℤ) - 200)
      omega
    · simp [hrun, hsp]
    · simp only [Option.any_some, decide_eq_true_eq]
      show ¬(c ≥ (2000 : ℤ))
      omega
  · intro hrun hsp c hc
    subst hc
    rw [heval tvoc]
    unfold presentBranch
    dsimp only
    by_cases h20 : c ≥ (2000 : ℤ)
    · rw [if_pos]
      · constructor
        · split <;> simp_all
        · intro h
          omega
      · simp only [Option.any_some, decide_eq_true_eq]
        exact h20
    · rw [if_neg, if_pos]
      · by_cases h18 : c < (1800 : ℤ)
        · rw [if_pos]
          · simpa using h18
          · simp only [Option.any_some, decide_eq_true_eq]
            show c < (2000 : ℤ) - 200
            omega
        · rw [if_neg]
          · constructor
            · intro h
              rw [checkManualOverrideExpiry_ervRunning, hrun] at h
              exact absurd h (by simp)
            · intro h
              exact absurd h h18
          · simp only [Option.any_some, decide_eq_true_eq]
            show ¬(c < (2000 : ℤ) - 200)
            omega
      · simp [hrun, hsp]
      · simp only [Option.any_some, decide_eq_true_eq]
        exact h20

/-- A PRESENT state with the ERV running QUIET (no interlock, no override). -/
def sC5 : OrchState :=
  { orchInit with smState := OccState.present, ervRunning := true,
                  ervSpeed := Speed.quiet }

/-- Witness for C5 at concrete inputs: from off, CO2 = 2100 turns the ERV on
QUIET; running QUIET at CO2 = 1900 (inside the dead band) nothing is issued
and it stays QUIET; running QUIET at CO2 = 1700 it turns off; and the tVOC
reading is irrelevant. -/
theorem c5_witness :
    (evaluateErvState {} { orchInit with smState := OccState.present } 0
        (some 2100) none).state.ervRunning = true ∧
      (evaluateErvState {} { orchInit with smState := OccState.present } 0
        (some 2100) none).state.ervSpeed = Speed.quiet ∧
      (evaluateErvState {} sC5 0 (some 1900) none).actions = [] ∧
      (evaluateErvState {} sC5 0 (some 1900) none).state.ervRunning = true ∧
      (evaluateErvState {} sC5 0 (some 1900) none).state.ervSpeed = Speed.quiet ∧
      (evaluateErvState {} sC5 0 (some 1700) none).state.ervRunning = false ∧
      evaluateErvState {} sC5 0 (some 1900) none =
        evaluateErvState {} sC5 0 (some 1900) (some 999999) :=
  ⟨((c5_present_co2_hysteresis { orchInit with smState := OccState.present } 0
      (some 2100) none rfl rfl rfl rfl).2.1 2100 rfl (by decide)).1,
   ((c5_present_co2_hysteresis { orchInit with smState := OccState.present } 0
      (some 2100) none rfl rfl rfl rfl).2.1 2100 rfl (by decide)).2,
   ((c5_present_co2_hysteresis sC5 0 (some 1900) none rfl rfl rfl rfl).2.2.2.1
      rfl rfl 1900 rfl (by decide) (by decide)).1,
   ((c5_present_co2_hysteresis sC5 0 (some 1900) none rfl rfl rfl rfl).2.2.2.1
      rfl rfl 1900 rfl (by decide) (by decide)).2.1,
   ((c5_present_co2_hysteresis sC5 0 (some 1900) none rfl rfl rfl rfl).2.2.2.1
      rfl rfl 1900 rfl (by decide) (by decide)).2.2,
   ((c5_present_co2_hysteresis sC5 0 (some 1700) none rfl rfl rfl rfl).2.2.2.2
      rfl rfl 1700 rfl).mpr (by decide),
   (c5_present_co2_hysteresis sC5 0 (some 1900) none rfl rfl rfl rfl).1
     (some 999999)⟩

/-! ## C9 -/

/-!
`StateMachine.evaluate` only writes the occupancy state, the door-open-away
timer flag and `_last_door_state`; every sensor field passes through
unchanged.
-/


@[simp] theorem smEvaluate_macLastActive (cfg : StateCfg) (s : SmState) (now : ℚ) :
    ((smEvaluate cfg s now).1).macLastActive = s.macLastActive := by
  unfold smEvaluate startDoorOpenAwayTimer
  dsimp only
  repeat' split
  all_goals rfl

@[simp] theorem smEvaluate_externalMonitor (cfg : StateCfg) (s : SmState) (now : ℚ) :
    ((smEvaluate cfg s now).1).externalMonitor = s.externalMonitor := by
  unfold smEvaluate startDoorOpenAwayTimer
  dsimp only
  repeat' split
  all_goals rfl

@[simp] theorem smEvaluate_motionDetected (cfg : StateCfg) (s : SmState) (now : ℚ) :
    ((smEvaluate cfg s now).1).motionDetected = s.motionDetected := by
  unfold smEvaluate startDoorOpenAwayTimer
  dsimp only
  repeat' split
  all_goals rfl

@[simp] theorem smEvaluate_motionLastSeen (cfg : StateCfg) (s : SmState) (now : ℚ) :
    ((smEvaluate cfg s now).1).motionLastSeen = s.motionLastSeen := by
  unfold smEvaluate startDoorOpenAwayTimer
  dsimp only
  repeat' split
  all_goals rfl

@[simp] theorem smEvaluate_doorOpen (cfg : StateCfg) (s : SmState) (now : ℚ) :
    ((smEvaluate cfg s now).1).doorOpen = s.doorOpen := by
  unfold smEvaluate startDoorOpenAwayTimer
  dsimp only
  repeat' split
  all_goals rfl

@[simp] theorem smEvaluate_doorLastChanged (cfg : StateCfg) (s : SmState) (now : ℚ) :
    ((smEvaluate cfg s now).1).doorLastChanged = s.doorLastChanged := by
  unfold smEvaluate startDoorOpenAwayTimer
  dsimp only
  repeat' split
  all_goals rfl

@[simp] theorem smEvaluate_windowOpen (cfg : StateCfg) (s : SmState) (now : ℚ) :
    ((smEvaluate cfg s now).1).windowOpen = s.windowOpen := by
  unfold smEvaluate startDoorOpenAwayTimer
  dsimp only
  repeat' split
  all_goals rfl

@[simp] theorem smEvaluate_co2Ppm (cfg : StateCfg) (s : SmState) (now : ℚ) :
    ((smEvaluate cfg s now).1).co2Ppm = s.co2Ppm := by
  unfold smEvaluate startDoorOpenAwayTimer
  dsimp only
  repeat' split
  all_goals rfl

@[simp] theorem smEvaluate_verifyingDeparture (cfg : StateCfg) (s : SmState) (now : ℚ) :
    ((smEvaluate cfg s now).1).verifyingDeparture = s.verifyingDeparture := by
  unfold smEvaluate startDoorOpenAwayTimer
  dsimp only
  repeat' split
  all_goals rfl

/-- `is_present` and `in_door_open_mode` read only the sensor fields, so they
are unaffected by the fields `evaluate()` writes. -/
@[simp] theorem isPresent_update (cfg : StateCfg) (s : SmState) (now : ℚ)
    (st : OccState) (p : Bool) (l : Option Bool) :
    isPresent cfg { s with state := st, doorOpenAwayPending := p,
                           lastDoorState := l } now = isPresent cfg s now := rfl

@[simp] theorem inDoorOpenMode_update (cfg : StateCfg) (s : SmState) (now : ℚ)
    (st : OccState) (p : Bool) (l : Option Bool) :
    inDoorOpenMode cfg { s with state := st, doorOpenAwayPending := p,
                                lastDoorState := l } now =
      inDoorOpenMode cfg s now := rfl

/-- Normal form of `StateMachine.evaluate`: in both modes the committed state
is PRESENT exactly when the machine was AWAY with a presence signal, the
door-open-away timer is (re)started exactly in door-open mode with a presence
signal, and `_last_door_state` is stamped. -/
theorem smEvaluate_eq (cfg : StateCfg) (s : SmState) (now : ℚ) :
    smEvaluate cfg s now =
      ({ s with
         state := if s.state = OccState.away ∧ isPresent cfg s now then
             OccState.present
           else s.state,
         doorOpenAwayPending :=
           if inDoorOpenMode cfg s now ∧ isPresent cfg s now then true
           else s.doorOpenAwayPending,
         lastDoorState := some s.doorOpen },
       decide ((if s.state = OccState.away ∧ isPresent cfg s now then
           OccState.present
         else s.state) ≠ s.state)) := by
  unfold smEvaluate startDoorOpenAwayTimer
  dsimp only
  repeat' split
  all_goals simp_all
  all_goals (cases hst : s.state <;> simp_all)

/-- Re-evaluating the state machine with unchanged sensors and clock is a
no-op: the second `evaluate()` commits no transition (so no observer
notification fires) and leaves the machine state unchanged. -/
theorem smEvaluate_fixpoint (cfg : StateCfg) (s : SmState) (now : ℚ) :
    smEvaluate cfg (smEvaluate cfg s now).1 now = ((smEvaluate cfg s now).1, false) := by
  simp only [smEvaluate_eq, isPresent_update, inDoorOpenMode_update]
  by_cases hi : isPresent cfg s now = true <;>
    by_cases hc : inDoorOpenMode cfg s now = true <;>
    cases hst : s.state <;>
    simp_all

/-- Projection of the expiry check on the ERV override. -/
theorem che_manualErv (s : OrchState) (now : ℚ) :
    (checkManualOverrideExpiry s now).manualErv =
      if overrideExpired (s.manualErv.map ManualErv.setAt)
          s.manualOverrideTimeout now then none
      else s.manualErv := by
  rw [checkManualOverrideExpiry_eq]

/-- Projection of the expiry check on the HVAC override. -/
theorem che_manualHvac (s : OrchState) (now : ℚ) :
    (checkManualOverrideExpiry s now).manualHvac =
      if overrideExpired (s.manualHvac.map ManualHvac.setAt)
          s.manualOverrideTimeout now then none
      else s.manualHvac := by
  rw [checkManualOverrideExpiry_eq]

/-- After an expiry check, the surviving ERV override is not expired. -/
theorem che_erv_not_expired (s : OrchState) (now : ℚ) :
    overrideExpired ((checkManualOverrideExpiry s now).manualErv.map ManualErv.setAt)
      s.manualOverrideTimeout now = false := by
  rw [che_manualErv]
  split
  · rfl
  · rename_i h
    simpa using h

/-- After an expiry check, the surviving HVAC override is not expired. -/
theorem che_hvac_not_expired (s : OrchState) (now : ℚ) :
    overrideExpired ((checkManualOverrideExpiry s now).manualHvac.map ManualHvac.setAt)
      s.manualOverrideTimeout now = false := by
  rw [che_manualHvac]
  split
  · rfl
  · rename_i h
    simpa using h

/-- The expiry check is a no-op on a state whose overrides are not expired. -/
theorem che_noop (s : OrchState) (now : ℚ)
    (h1 : overrideExpired (s.manualErv.map ManualErv.setAt)
      s.manualOverrideTimeout now = false)
    (h2 : overrideExpired (s.manualHvac.map ManualHvac.setAt)
      s.manualOverrideTimeout now = false) :
    checkManualOverrideExpiry s now = s := by
  rw [checkManualOverrideExpiry_eq, h1, h2]
  simp

/-- Record-eta helpers: updating fields with their own values is a no-op. -/
theorem update_plateau_eq (s : OrchState) (a : Bool) (b : Option ℤ)
    (ha : s.plateauDetected = a) (hb : s.outdoorCo2Baseline = b) :
    ({ s with plateauDetected := a, outdoorCo2Baseline := b } : OrchState) = s := by
  subst ha hb
  rfl

theorem update_tvoc3_eq (s : OrchState) (a : Bool) (b : Option ℤ) (p : Bool)
    (ha : s.tvocAwayVentilationActive = a) (hb : s.tvocBaseline = b)
    (hp : s.tvocPlateauDetected = p) :
    ({ s with tvocAwayVentilationActive := a, tvocBaseline := b,
              tvocPlateauDetected := p } : OrchState) = s := by
  subst ha hb hp
  rfl

/-- The PRESENT branch is idempotent: re-running it on its own result issues
nothing and changes nothing. -/
theorem presentBranch_fixpoint (cfg : Thresholds) (s : OrchState) (co2 : Option ℤ) :
    presentBranch cfg (presentBranch cfg s co2).state co2 =
      ⟨(presentBranch cfg s co2).state, [], []⟩ := by
  unfold presentBranch
  dsimp only
  repeat' split
  all_goals simp_all

/-- The CO2 step of the AWAY branch is stable: on any state with the same
history and AWAY entry time whose plateau fields already carry the step's
writes, it returns the same recommendation and changes nothing. -/
theorem awayCo2Step_stable (cfg : Thresholds) (now : ℚ) (co2 : Option ℤ)
    (s s2 : OrchState)
    (h1 : s2.co2History = s.co2History) (h2 : s2.awayStartTime = s.awayStartTime)
    (h3 : s2.plateauDetected = (awayCo2Step cfg s now co2).2.plateauDetected)
    (h4 : s2.outdoorCo2Baseline = (awayCo2Step cfg s now co2).2.outdoorCo2Baseline) :
    awayCo2Step cfg s2 now co2 = ((awayCo2Step cfg s now co2).1, s2) := by
  revert h3 h4
  unfold awayCo2Step
  dsimp only
  rw [← h1, ← h2]
  split
  · split
    · intro h3 h4
      refine congrArg _ ?_
      exact update_plateau_eq s2 _ _ h3 h4
    · intro h3 h4
      rfl
  · intro h3 h4
    rfl

/-- The tVOC step of the AWAY branch is stable: on any state with the same
tVOC history whose tVOC bookkeeping fields already carry the step's writes,
it returns the same recommendation and changes nothing.  Requires the AWAY
target not to exceed the AWAY trigger threshold (source defaults 40 ≤ 200),
otherwise the ventilation-active latch could oscillate. -/
theorem awayTvocStep_stable (cfg : Thresholds) (tvoc : Option ℤ)
    (hcfg : cfg.tvocAwayTarget ≤ cfg.tvocAwayThreshold) (s s2 : OrchState)
    (hh : s2.tvocAwayHistory = s.tvocAwayHistory)
    (ha : s2.tvocAwayVentilationActive =
      (awayTvocStep cfg s tvoc).2.tvocAwayVentilationActive)
    (hp : s2.tvocPlateauDetected = (awayTvocStep cfg s tvoc).2.tvocPlateauDetected)
    (hb : s2.tvocBaseline = (awayTvocStep cfg s tvoc).2.tvocBaseline) :
    awayTvocStep cfg s2 tvoc = ((awayTvocStep cfg s tvoc).1, s2) := by
  have hkey : (tvoc.any fun v => decide (v ≤ cfg.tvocAwayTarget)) = true →
      (tvoc.any fun v => decide (v > cfg.tvocAwayThreshold)) = false := by
    cases tvoc with
    | none => simp
    | some v =>
      simp only [Option.any_some, decide_eq_true_eq]
      intro hv
      simp only [decide_eq_false_iff_not]
      omega
  by_cases hN : (tvoc.any fun v => decide (v > cfg.tvocAwayThreshold)) = true <;>
    by_cases hA : s.tvocAwayVentilationActive = true <;>
    by_cases hT : (tvoc.any fun v => decide (v ≤ cfg.tvocAwayTarget)) = true
  · exact absurd (hkey hT) (by simp [hN])
  · have ha2 : s2.tvocAwayVentilationActive = true := by
      rw [ha]
      unfold awayTvocStep
      simp [hA, hT, apply_ite OrchState.tvocAwayVentilationActive]
    revert hp hb
    unfold awayTvocStep
    dsimp only
    rw [← hh]
    simp only [hN, hA, hT, ha2, apply_ite OrchState.tvocAwayVentilationActive,
      apply_ite OrchState.tvocPlateauDetected, apply_ite OrchState.tvocBaseline,
      ite_self, true_or, or_true, if_true, false_and, and_false, if_false,
      not_true, false_or, and_true, true_and, if_neg, Bool.not_eq_true,
      decide_eq_true_eq]
    intro hp hb
    revert hp hb
    split <;> intro hp hb
    · exact congrArg _ (update_tvoc3_eq s2 _ _ _ ha2 hb hp)
    · rfl
  · exact absurd (hkey hT) (by simp [hN])
  · -- hN, ¬hA, ¬hT: the latch fires, active becomes and stays true
    have ha2 : s2.tvocAwayVentilationActive = true := by
      rw [ha]
      unfold awayTvocStep
      simp [hN, hA, hT, apply_ite OrchState.tvocAwayVentilationActive]
    revert hp hb
    unfold awayTvocStep
    dsimp only
    rw [← hh]
    simp only [hN, hA, hT, ha2, apply_ite OrchState.tvocAwayVentilationActive,
      apply_ite OrchState.tvocPlateauDetected, apply_ite OrchState.tvocBaseline,
      ite_self, true_or, or_true, if_true, false_and, and_false, if_false,
      not_true, false_or, and_true, true_and, if_neg, Bool.not_eq_true,
      decide_eq_true_eq, Bool.false_eq_true, false_and, if_false]
    intro hp hb
    revert hp hb
    split <;> intro hp hb
    · exact congrArg _ (update_tvoc3_eq s2 _ _ _ ha2 hb hp)
    · rfl
  · -- ¬hN, hA, hT: at target with active ventilation: it ends, and stays off
    have ha2 : s2.tvocAwayVentilationActive = false := by
      rw [ha]
      unfold awayTvocStep
      simp [hN, hA, hT]
    unfold awayTvocStep
    simp [hN, hA, hT, ha2]
  · -- ¬hN, hA, ¬hT: active ventilation continues
    have ha2 : s2.tvocAwayVentilationActive = true := by
      rw [ha]
      unfold awayTvocStep
      simp [hN, hA, hT, apply_ite OrchState.tvocAwayVentilationActive]
    revert hp hb
    unfold awayTvocStep
    dsimp only
    rw [← hh]
    simp only [hN, hA, hT, ha2, apply_ite OrchState.tvocAwayVentilationActive,
      apply_ite OrchState.tvocPlateauDetected, apply_ite OrchState.tvocBaseline,
      ite_self, true_or, or_true, if_true, false_and, and_false, if_false,
      not_true, false_or, and_true, true_and, if_neg, Bool.not_eq_true,
      decide_eq_true_eq]
    intro hp hb
    revert hp hb
    split <;> intro hp hb
    · exact congrArg _ (update_tvoc3_eq s2 _ _ _ ha2 hb hp)
    · rfl
  · -- ¬hN, ¬hA, hT: nothing to do
    have ha2 : s2.tvocAwayVentilationActive = false := by
      rw [ha]
      unfold awayTvocStep
      simp [hN, hA]
    unfold awayTvocStep
    simp [hN, hA, hT, ha2]
  · -- ¬hN, ¬hA, ¬hT: nothing to do
    have ha2 : s2.tvocAwayVentilationActive = false := by
      rw [ha]
      unfold awayTvocStep
      simp [hN, hA]
    unfold awayTvocStep
    simp [hN, hA, hT, ha2]

/-- The combined AWAY actuator decision is idempotent: re-running it on its
own result with the same recommendations issues nothing and changes
nothing. -/
theorem awayCombine_fixpoint (a b : Option Speed) (r : Bool) (s : OrchState) :
    awayCombine a b r (awayCombine a b r s).state =
      ⟨(awayCombine a b r s).state, [], []⟩ := by
  by_cases h1 : a = some Speed.off ∧
      (b = some Speed.off ∨ ¬s.tvocAwayVentilationActive = true)
  · have hrun : (awayCombine a b r s).state.ervRunning = false := by
      unfold awayCombine
      rw [if_pos h1]
      split <;> simp_all
    rw [awayCombine.eq_def]
    simp only [awayCombine_tvocAwayVentilationActive]
    rw [if_pos h1, if_neg (by simp [hrun])]
  · by_cases h2 : prioOpt a ≥ 0 ∨ prioOpt b ≥ 0
    · cases ht : (if prioOpt a ≥ prioOpt b then a else b) with
      | none =>
        have e : awayCombine a b r s = ⟨s, [], []⟩ := by
          unfold awayCombine
          rw [if_neg h1, if_pos h2, ht]
        rw [e]
        exact e
      | some sp =>
        by_cases hsp : sp = Speed.off
        · have e : awayCombine a b r s = ⟨s, [], []⟩ := by
            unfold awayCombine
            rw [if_neg h1, if_pos h2, ht]
            dsimp only
            rw [if_neg (by simp [hsp])]
          rw [e]
          exact e
        · by_cases hg : ¬s.ervRunning = true ∨ s.ervSpeed ≠ sp
          · have hrs : (awayCombine a b r s).state.ervRunning = true ∧
                (awayCombine a b r s).state.ervSpeed = sp := by
              unfold awayCombine
              rw [if_neg h1, if_pos h2, ht]
              dsimp only
              rw [if_pos hsp, if_pos hg]
              exact ⟨rfl, rfl⟩
            rw [awayCombine.eq_def]
            simp only [awayCombine_tvocAwayVentilationActive]
            rw [if_neg h1, if_pos h2, ht]
            dsimp only
            rw [if_pos hsp, if_neg (by simp [hrs.1, hrs.2])]
          · have e : awayCombine a b r s = ⟨s, [], []⟩ := by
              unfold awayCombine
              rw [if_neg h1, if_pos h2, ht]
              dsimp only
              rw [if_pos hsp, if_neg hg]
            rw [e]
            exact e
    · by_cases h3 : ¬r = true ∧ ¬s.tvocAwayVentilationActive = true
      · have hrun : (awayCombine a b r s).state.ervRunning = false := by
          unfold awayCombine
          rw [if_neg h1, if_neg h2, if_pos h3]
          split <;> simp_all
        rw [awayCombine.eq_def]
        simp only [awayCombine_tvocAwayVentilationActive]
        rw [if_neg h1, if_neg h2, if_pos h3, if_neg (by simp [hrun])]
      · by_cases hg : ¬s.ervRunning = true ∨ s.ervSpeed ≠ Speed.turbo
        · have hrs : (awayCombine a b r s).state.ervRunning = true ∧
              (awayCombine a b r s).state.ervSpeed = Speed.turbo := by
            unfold awayCombine
            rw [if_neg h1, if_neg h2, if_neg h3, if_pos hg]
            exact ⟨rfl, rfl⟩
          rw [awayCombine.eq_def]
          simp only [awayCombine_tvocAwayVentilationActive]
          rw [if_neg h1, if_neg h2, if_neg h3, if_neg (by simp [hrs.1, hrs.2])]
        · have e : awayCombine a b r s = ⟨s, [], []⟩ := by
            unfold awayCombine
            rw [if_neg h1, if_neg h2, if_neg h3, if_neg hg]
          rw [e]
          exact e

/-- The AWAY branch is idempotent: with unchanged readings, histories and
clock, re-running it on its own result issues nothing and changes nothing
(requires the tVOC away target not to exceed the away threshold, as in the
source defaults). -/
theorem awayBranch_fixpoint (cfg : Thresholds) (s : OrchState) (now : ℚ)
    (co2 tvoc : Option ℤ)
    (hcfg : cfg.tvocAwayTarget ≤ cfg.tvocAwayThreshold) :
    awayBranch cfg (awayBranch cfg s now co2 tvoc).state now co2 tvoc =
      ⟨(awayBranch cfg s now co2 tvoc).state, [], []⟩ := by
  unfold awayBranch
  dsimp only
  set c := awayCo2Step cfg s now co2 with hcdef
  set t := awayTvocStep cfg c.2 tvoc with htdef
  set R := co2.any fun v => decide (v > cfg.co2RefreshTargetPpm) with hRdef
  set s1 := (awayCombine c.1 t.1 R t.2).state with hs1def
  have hC : awayCo2Step cfg s1 now co2 = (c.1, s1) := by
    rw [hcdef]
    apply awayCo2Step_stable
    · rw [hs1def]
      simp [htdef, hcdef]
    · rw [hs1def]
      simp [htdef, hcdef]
    · rw [hs1def, ← hcdef]
      simp [htdef]
    · rw [hs1def, ← hcdef]
      simp [htdef]
  have hT : awayTvocStep cfg s1 tvoc = (t.1, s1) := by
    rw [htdef]
    apply awayTvocStep_stable cfg tvoc hcfg
    · rw [hs1def]
      simp [htdef]
    · rw [hs1def, ← htdef]
      simp
    · rw [hs1def, ← htdef]
      simp
    · rw [hs1def, ← htdef]
      simp
  rw [hC]
  dsimp only
  rw [hT]
  dsimp only
  rw [hs1def]
  exact awayCombine_fixpoint c.1 t.1 R t.2

@[simp] theorem awayBranch_smState (cfg : Thresholds) (s : OrchState) (now : ℚ)
    (co2 tvoc : Option ℤ) :
    (awayBranch cfg s now co2 tvoc).state.smState = s.smState := by
  unfold awayBranch
  dsimp only
  simp

@[simp] theorem awayBranch_windowOpen (cfg : Thresholds) (s : OrchState) (now : ℚ)
    (co2 tvoc : Option ℤ) :
    (awayBranch cfg s now co2 tvoc).state.windowOpen = s.windowOpen := by
  unfold awayBranch
  dsimp only
  simp

@[simp] theorem awayBranch_doorOpen (cfg : Thresholds) (s : OrchState) (now : ℚ)
    (co2 tvoc : Option ℤ) :
    (awayBranch cfg s now co2 tvoc).state.doorOpen = s.doorOpen := by
  unfold awayBranch
  dsimp only
  simp

@[simp] theorem awayBranch_manualErv (cfg : Thresholds) (s : OrchState) (now : ℚ)
    (co2 tvoc : Option ℤ) :
    (awayBranch cfg s now co2 tvoc).state.manualErv = s.manualErv := by
  unfold awayBranch
  dsimp only
  simp

/-- The body of `_evaluate_erv_state` is idempotent. -/
theorem evalBody_fixpoint (cfg : Thresholds) (s : OrchState) (now : ℚ)
    (co2 tvoc : Option ℤ)
    (hcfg : cfg.tvocAwayTarget ≤ cfg.tvocAwayThreshold) :
    evalBody cfg (evalBody cfg s now co2 tvoc).state now co2 tvoc =
      ⟨(evalBody cfg s now co2 tvoc).state, [], []⟩ := by
  by_cases hI : s.windowOpen = true ∨ s.doorOpen = true
  · have hrun : (evalBody cfg s now co2 tvoc).state.ervRunning = false := by
      unfold evalBody
      rw [if_pos hI]
      split <;> simp_all
    rw [evalBody.eq_def]
    simp only [evalBody_windowOpen, evalBody_doorOpen]
    rw [if_pos hI, if_neg (by simp [hrun])]
  · rcases hm : s.manualErv with _ | m
    · rcases hst : s.smState with _ | _
      · have e : evalBody cfg s now co2 tvoc = presentBranch cfg s co2 := by
          unfold evalBody
          rw [if_neg hI, hm]
          dsimp only
          rw [if_pos hst]
        rw [e]
        unfold evalBody
        simp only [presentBranch_windowOpen, presentBranch_doorOpen,
          presentBranch_manualErv, presentBranch_smState]
        rw [if_neg hI, hm]
        dsimp only
        rw [if_pos hst]
        exact presentBranch_fixpoint cfg s co2
      · have e : evalBody cfg s now co2 tvoc = awayBranch cfg s now co2 tvoc := by
          unfold evalBody
          rw [if_neg hI, hm]
          dsimp only
          rw [if_neg (by simp [hst])]
        rw [e]
        unfold evalBody
        simp only [awayBranch_windowOpen, awayBranch_doorOpen,
          awayBranch_manualErv, awayBranch_smState]
        rw [if_neg hI, hm]
        dsimp only
        rw [if_neg (by simp [hst])]
        exact awayBranch_fixpoint cfg s now co2 tvoc hcfg
    · by_cases hsp : m.speed = Speed.off
      · have hrun : (evalBody cfg s now co2 tvoc).state.ervRunning = false := by
          unfold evalBody
          rw [if_neg hI, hm]
          dsimp only
          rw [if_pos hsp]
          split <;> simp_all
        rw [evalBody.eq_def]
        simp only [evalBody_windowOpen, evalBody_doorOpen, evalBody_manualErv]
        rw [if_neg hI, hm]
        dsimp only
        rw [if_pos hsp, if_neg (by simp [hrun])]
      · by_cases hg : ¬s.ervRunning = true ∨ s.ervSpeed ≠ m.speed
        · have hrs : (evalBody cfg s now co2 tvoc).state.ervRunning = true ∧
              (evalBody cfg s now co2 tvoc).state.ervSpeed = m.speed := by
            unfold evalBody
            rw [if_neg hI, hm]
            dsimp only
            rw [if_neg hsp, if_pos hg]
            exact ⟨rfl, rfl⟩
          rw [evalBody.eq_def]
          simp only [evalBody_windowOpen, evalBody_doorOpen, evalBody_manualErv]
          rw [if_neg hI, hm]
          dsimp only
          rw [if_neg hsp, if_neg (by simp [hrs.1, hrs.2])]
        · have e : evalBody cfg s now co2 tvoc = ⟨s, [], []⟩ := by
            unfold evalBody
            rw [if_neg hI, hm]
            dsimp only
            rw [if_neg hsp, if_neg hg]
          rw [e]
          exact e

/-- `_evaluate_erv_state` is idempotent: a second evaluation on the state the
first one produced, with the same readings and clock, issues no actuator
command and writes no audit row. -/
theorem evaluateErvState_fixpoint (cfg : Thresholds) (s : OrchState) (now : ℚ)
    (co2 tvoc : Option ℤ)
    (hcfg : cfg.tvocAwayTarget ≤ cfg.tvocAwayThreshold) :
    evaluateErvState cfg (evaluateErvState cfg s now co2 tvoc).state now co2 tvoc =
      ⟨(evaluateErvState cfg s now co2 tvoc).state, [], []⟩ := by
  unfold evaluateErvState
  have hnoop : checkManualOverrideExpiry
      (evalBody cfg (checkManualOverrideExpiry s now) now co2 tvoc).state now =
      (evalBody cfg (checkManualOverrideExpiry s now) now co2 tvoc).state := by
    apply che_noop
    · simp only [evalBody_manualErv, evalBody_manualOverrideTimeout,
        checkManualOverrideExpiry_manualOverrideTimeout]
      exact che_erv_not_expired s now
    · simp only [evalBody_manualHvac, evalBody_manualOverrideTimeout,
        checkManualOverrideExpiry_manualOverrideTimeout]
      exact che_hvac_not_expired s now
  rw [hnoop]
  exact evalBody_fixpoint cfg (checkManualOverrideExpiry s now) now co2 tvoc hcfg

/-- Concrete state-machine state used to instantiate the idempotence theorem:
PRESENT with recent motion, door and window closed. -/
def sC9 : SmState where
  state := OccState.present
  macLastActive := 0
  externalMonitor := false
  motionDetected := true
  motionLastSeen := 0
  doorOpen := false
  doorLastChanged := 0
  windowOpen := false
  co2Ppm := 500
  lastDoorState := some false
  verifyingDeparture := false
  doorOpenAwayPending := false

/-- C9: evaluation is idempotent.  With all sensor inputs (CO2, tVOC, door,
window, motion, workstation activity) and the clock unchanged, a second run of
`_evaluate_erv_state` on the state the first run produced issues no actuator
command and logs no climate-action audit row, and a second run of
`StateMachine.evaluate` keeps the occupancy state, all timer flags and the
notification flag exactly as the first run left them and reports no
transition.  (For the ERV half this needs the configuration to place the tVOC
away target at or below the away threshold, as the source defaults 40 ≤ 200
do; otherwise the tVOC ventilation latch would oscillate.) -/
theorem c9_evaluation_idempotent (cfg : Thresholds) (s : OrchState)
    (sm : SmState) (scfg : StateCfg) (now : ℚ) (co2 tvoc : Option ℤ)
    (hcfg : cfg.tvocAwayTarget ≤ cfg.tvocAwayThreshold) :
    evaluateErvState cfg (evaluateErvState cfg s now co2 tvoc).state now co2 tvoc =
      ⟨(evaluateErvState cfg s now co2 tvoc).state, [], []⟩ ∧
    smEvaluate scfg (smEvaluate scfg sm now).1 now =
      ((smEvaluate scfg sm now).1, false) :=
  ⟨evaluateErvState_fixpoint cfg s now co2 tvoc hcfg,
   smEvaluate_fixpoint scfg sm now⟩

/-- Witness for C9 at the source-default configuration and a concrete state:
the hypothesis 40 ≤ 200 holds and both fixpoint equations follow. -/
theorem c9_witness :
    ({} : Thresholds).tvocAwayTarget ≤ ({} : Thresholds).tvocAwayThreshold ∧
    (evaluateErvState {} (evaluateErvState {} orchInit 0 (some 1000)
        (some 100)).state 0 (some 1000) (some 100) =
      ⟨(evaluateErvState {} orchInit 0 (some 1000) (some 100)).state, [], []⟩ ∧
    smEvaluate {} (smEvaluate {} sC9 0).1 0 = ((smEvaluate {} sC9 0).1, false)) :=
  ⟨by decide,
   c9_evaluation_idempotent {} orchInit sC9 {} 0 (some 1000) (some 100)
     (by decide)⟩
